import Mathlib

/-!
# xinra-app: client-side dashboard logic (`static/js/app.js`)

A shallow embedding of the script's star-rating widget, theme toggle and admin
chart refresher, followed by the properties established about them.

Conventions of the embedding:

* DOM token lists (`classList`) are lists of strings; `add` keeps a token that
  is already there, `remove` drops every occurrence.
* A JavaScript number is the exact rational or integer value of a double; the
  "no number" results (`NaN`, `null`, `undefined`) are `none`. Division rounds
  its result to the nearest double (`fdiv`), and `String(n)` prints the fewest
  digits that read back as `n` (`numToString`).
* Code that can throw returns a `Completion`: the state it leaves behind
  together with the way it ended.
* The charting library, `Intl.NumberFormat`, `JSON.parse` and the network are
  external: they enter as the fields of `Env` and as a `FetchOutcome`. Of the
  library it is assumed that `destroy()` returns and that instances are
  numbered in order; a constructor that throws may leave its instance
  registered (`Env.registers`), and the library's refusal of a canvas that is
  in use is the condition `Lawful`.
* The page is taken as served: each of the two canvases has a card of its own,
  and no card carries a loading overlay before the script adds one.
-/

namespace XinraApp

/-! ## JSON values -/

/-- JSON documents as returned by `res.json()` and `JSON.parse`
(numbers are the integers: the payload carries minor currency units). -/
inductive Json where
  | null
  | bool (b : Bool)
  | num (n : Int)
  | str (s : String)
  | arr (xs : List Json)
  | obj (kvs : List (String × Json))

/-- JavaScript truthiness of a JSON value: `null`, `false`, `0` and `""` are falsy. -/
def Json.truthy : Json → Bool
  | .null => false
  | .bool b => b
  | .num n => n != 0
  | .str s => s != ""
  | .arr _ => true
  | .obj _ => true

/-- The comparison `v === s` of a value (`none` is `undefined`) against a
string literal. -/
def strictEqStr : Option Json → String → Bool
  | some (.str t), s => t == s
  | _, _ => false

/-- The number of entries of an array handed to the chart as a series or label
list (`0` for a value that is no array). -/
def Json.length : Json → Nat
  | .arr xs => xs.length
  | _ => 0

/-! ## Star rating widget (`window.initStars`) -/

/-- The method `classList.add(tok)`. -/
def classAdd (cls : List String) (tok : String) : List String :=
  if tok ∈ cls then cls else cls ++ [tok]

/-- The method `classList.remove(tok)`. -/
def classRemove (cls : List String) (tok : String) : List String :=
  cls.filter (fun t => t != tok)

/-- One `.star-input` container: the value of its hidden input and the class
list of each of its `.bi` elements, in document order. -/
structure StarInput where
  hidden : String
  stars : List (List String)

/-- The double nearest to a natural number, ties to even (the numbers the
script meets stay below the overflow threshold). -/
def nearestDouble (m : Nat) : Nat :=
  if m < 2 ^ 53 then m
  else
    let e := (Nat.toDigits 2 m).length - 53
    let q := m / 2 ^ e
    let r := m % 2 ^ e
    let up := decide (2 ^ e < 2 * r) || (decide (2 * r = 2 ^ e) && decide (q % 2 = 1))
    (if up then q + 1 else q) * 2 ^ e

/-- The `k`-digit decimal `s × 10^(n-k)` that reads back as the double `m`, if
there is one: the pair `(s, n)`, the candidate nearer to `m` when both
neighbours read back as `m`. Here `n` is the number of decimal digits of `m`. -/
def shortestAt (m n k : Nat) : Option (Nat × Nat) :=
  let p := 10 ^ (n - k)
  let lo := m / p
  let hi := lo + 1
  let okLo := nearestDouble (lo * p) == m
  let okHi := nearestDouble (hi * p) == m
  let hiN : Nat × Nat := if hi = 10 ^ k then (10 ^ (k - 1), n + 1) else (hi, n)
  if okLo && okHi then
    if m - lo * p < hi * p - m then some (lo, n)
    else if hi * p - m < m - lo * p then some hiN
    else if lo % 2 = 0 then some (lo, n) else some hiN
  else if okLo then some (lo, n)
  else if okHi then some hiN
  else none

/-- The digits `s` and the decimal exponent `n` of `Number::toString` for an
integer-valued double `m`: the fewest digits that read back as `m`. -/
def shortestDigits (m : Nat) : Nat × Nat :=
  let n := (Nat.toDigits 10 m).length
  ((List.range' 1 17).findSome? (shortestAt m n)).getD (m, n)

/-- The result of `String(m)` for a non-negative integer-valued double `m`: the
decimal numeral up to `2^53`; beyond, the shortest digits that read back as
`m`, padded with zeros while `m < 10^21` and in exponent notation from `10^21`
on. -/
def natToString (m : Nat) : String :=
  if m ≤ 2 ^ 53 then String.mk (Nat.toDigits 10 m)
  else
    let sn := shortestDigits m
    let digits := Nat.toDigits 10 sn.1
    let n := sn.2
    let k := digits.length
    if n ≤ 21 then String.mk (digits ++ List.replicate (n - k) '0')
    else if k = 1 then String.mk (digits ++ ['e', '+'] ++ Nat.toDigits 10 (n - 1))
    else
      String.mk (digits.take 1 ++ ['.'] ++ digits.drop 1 ++ ['e', '+'] ++
        Nat.toDigits 10 (n - 1))

/-- The string a number is stored as in `hidden.value`, that is `String(val)`:
`none` is `NaN`, `some v` an integer-valued double. -/
def numToString : Option Int → String
  | none => "NaN"
  | some (Int.ofNat m) => natToString m
  | some (Int.negSucc m) => "-" ++ natToString (m + 1)

/-- The comparison `idx < val` (`false` against `NaN`). -/
def idxLt (idx : Nat) : Option Int → Bool
  | none => false
  | some v => decide ((idx : Int) < v)

/-- The body of the `stars.forEach` callback inside `set`. -/
def paintStar (val : Option Int) (idx : Nat) (s : List String) : List String :=
  if idxLt idx val then
    classAdd (classAdd (classRemove s "bi-star") "bi-star-fill") "text-warning"
  else
    classRemove (classRemove (classAdd s "bi-star") "bi-star-fill") "text-warning"

/-- The painting loop of `set` over the stars from index `i` on. -/
def paintFrom (val : Option Int) : Nat → List (List String) → List (List String)
  | _, [] => []
  | i, s :: rest => paintStar val i s :: paintFrom val (i + 1) rest

/-- The closure `set(val)` of one container. -/
def StarInput.set (c : StarInput) (val : Option Int) : StarInput :=
  { hidden := numToString val, stars := paintFrom val 0 c.stars }

/-- A star shown filled. -/
def starFilled (cls : List String) : Prop :=
  "bi-star-fill" ∈ cls ∧ "text-warning" ∈ cls ∧ "bi-star" ∉ cls

/-- A star shown empty. -/
def starEmpty (cls : List String) : Prop :=
  "bi-star" ∈ cls ∧ "bi-star-fill" ∉ cls ∧ "text-warning" ∉ cls

/-! ## Theme toggle (`applyTheme`, `initThemeToggle`) -/

/-- The part of the page the theme toggle touches. -/
structure ThemeDom where
  /-- Tokens of `document.body.classList`. -/
  bodyClasses : List String
  /-- Entries of `localStorage`. -/
  storage : List (String × String)
  /-- The `className` of `#themeToggleIcon`, when the element exists. -/
  iconClass : Option String

/-- The method `localStorage.getItem(key)`. -/
def getItem (st : List (String × String)) (key : String) : Option String :=
  st.lookup key

/-- The method `localStorage.setItem(key, value)` when the write goes through. -/
def setItem (st : List (String × String)) (key value : String) : List (String × String) :=
  (key, value) :: st.filter (fun kv => kv.1 != key)

/-- The method `classList.toggle(tok, force)`. -/
def classToggle (cls : List String) (tok : String) (force : Bool) : List String :=
  if force then classAdd cls tok else classRemove cls tok

/-- The function `applyTheme(mode)`; `writable = false` is a storage whose
`setItem` throws, which the `try` swallows. -/
def applyTheme (writable : Bool) (mode : Option Json) (d : ThemeDom) : ThemeDom :=
  let dark := strictEqStr mode "dark"
  { bodyClasses := classToggle d.bodyClasses "theme-dark" dark
    storage :=
      if writable then setItem d.storage "theme.mode" (if dark then "dark" else "light")
      else d.storage
    iconClass := d.iconClass.map (fun _ => if dark then "bi bi-sun-fill" else "bi bi-moon-stars") }

/-- The mode `initThemeToggle` starts from: `getItem('theme.mode') || 'light'`,
and `'light'` when reading the storage throws (`readable = false`). -/
def savedMode (readable : Bool) (d : ThemeDom) : String :=
  if readable then
    match getItem d.storage "theme.mode" with
    | some v => if v != "" then v else "light"
    | none => "light"
  else "light"

/-- The synchronous part of `initThemeToggle()`. -/
def initThemeToggle (readable writable : Bool) (d : ThemeDom) : ThemeDom :=
  applyTheme writable (some (Json.str (savedMode readable d))) d

/-- The click handler installed on `#themeToggle`. -/
def themeToggleClick (writable : Bool) (d : ThemeDom) : ThemeDom :=
  let next := if "theme-dark" ∈ d.bodyClasses then "light" else "dark"
  applyTheme writable (some (Json.str next)) d

/-! ## Currency formatting (`fmtCents`) -/

/-- The operand `c || 0`: a missing number and zero both give `0`. -/
def orZero : Option ℚ → ℚ
  | none => 0
  | some q => if q = 0 then 0 else q

/-- The integer nearest to a rational, ties to even. -/
def roundHalfEven (x : ℚ) : ℤ :=
  let f := ⌊x⌋
  if x - f < 1 / 2 then f
  else if 1 / 2 < x - f then f + 1
  else if f % 2 = 0 then f else f + 1

/-- The binary exponent of the last place of the double nearest to `q`: 53
significant bits, and never below the last place of the subnormals. -/
def ulpExponent (q : ℚ) : ℤ :=
  max (Int.log 2 |q| - 52) (-1074)

/-- The double nearest to a rational: round to nearest, ties to even (the
quotients the script forms stay below the overflow threshold). -/
def toDouble (q : ℚ) : ℚ :=
  if q = 0 then 0 else (roundHalfEven (q / 2 ^ ulpExponent q) : ℚ) * 2 ^ ulpExponent q

/-- The JavaScript quotient `a / b` of two doubles, `b` not zero. -/
def fdiv (a b : ℚ) : ℚ :=
  toDouble (a / b)

/-- The closure `fmtCents`, over the formatter `money.format`; the formatter
receives a double. -/
def fmtCents (money : ℚ → String) (c : Option ℚ) : String :=
  money (fdiv (orZero c) 100)

/-! ## Admin dashboard charts (`initAdminCharts`) -/

/-- The two canvases, `#tipsChart` and `#staffChart`. -/
inductive Slot where
  | tips
  | staff
  deriving DecidableEq

/-- The `type` of a chart configuration. -/
inductive ChartType where
  | line
  | bar
  deriving DecidableEq

/-- One entry of `data.datasets` (styling fields left out). -/
structure Dataset where
  label : String
  data : Json

/-- The configuration object passed to `new Chart`: its data and the callbacks
of its options (colours, widths and grid options left out). -/
structure ChartConfig where
  type : ChartType
  labels : Json
  datasets : List Dataset
  /-- Field `options.plugins.legend.display`. -/
  legend : Bool
  /-- Callback `options.scales.y.ticks.callback`, applied to the tick value. -/
  yTick : Option ℚ → String
  /-- Callback `options.plugins.tooltip.callbacks.label`, applied to
  `ctx.dataset.label` and `ctx.parsed.y`. -/
  tooltipLabel : String → Option ℚ → String

/-- A chart instance: the library numbers its instances, and an instance keeps
the canvas and configuration it was constructed with. -/
structure Chart where
  id : Nat
  canvas : Slot
  config : ChartConfig

/-- What the refresher does to the world outside its own variables. -/
inductive Event where
  /-- A `fetch(url, ...)` was issued. -/
  | request (url : String)
  /-- A `console.error(msg, err)` was written. -/
  | consoleError (msg : String)
  /-- A `setInterval(fetchData, ms)` was installed. -/
  | interval (ms : Nat)
  /-- A `new Chart(...)` registered this instance with the library (whether it
  then returned or threw). -/
  | constructed (c : Chart)
  /-- The instance with this id had `destroy()` called on it. -/
  | destroyed (id : Nat)

/-- The external collaborators of the refresher. -/
structure Env where
  /-- The method `money.format` of the `Intl.NumberFormat('es-ES', EUR)` object. -/
  money : ℚ → String
  /-- Whether `new Chart(canvas, config)` returns (`true`) or throws (`false`);
  for the staff canvas this includes the gradient built just before it. -/
  accepts : Slot → ChartConfig → Bool
  /-- For a `new Chart(canvas, config)` that throws: whether the library had
  already registered the instance when it threw (Chart.js registers the
  instance before its first update), which leaves it live on the canvas. -/
  registers : Slot → ChartConfig → Bool
  /-- The function `JSON.parse`: `none` when it throws. -/
  parse : String → Option Json

/-- The closure state of `initAdminCharts` and the page around it.
Each canvas sits in a card of its own (`getCard`), and a card holds some number
of `.chart-loading` elements. -/
structure State where
  tipsChart : Option Chart
  staffChart : Option Chart
  /-- The id the library gives to the next instance. -/
  nextId : Nat
  tipsOverlays : Nat
  staffOverlays : Nat
  log : List Event

/-- The state right after `let tipsChart = null; let staffChart = null;` on a
page served without loading overlays. -/
def State.init : State :=
  { tipsChart := none, staffChart := none, nextId := 0,
    tipsOverlays := 0, staffOverlays := 0, log := [] }

/-- How a piece of code ends: normally, or by throwing. -/
inductive Completion where
  | normal (s : State)
  | thrown (s : State)

/-- The state a completion leaves behind. -/
def Completion.state : Completion → State
  | .normal s => s
  | .thrown s => s

/-- Whether a completion is an exception. -/
def Completion.isThrown : Completion → Bool
  | .normal _ => false
  | .thrown _ => true

/-- The statement `try { body } catch (e) { handler }`. -/
def Completion.catch (body : Completion) (handler : State → Completion) : Completion :=
  match body with
  | .normal s => .normal s
  | .thrown s => handler s

/-- The clause `finally { cleanup }` for a cleanup that does not throw. -/
def Completion.finally (body : Completion) (cleanup : State → State) : Completion :=
  match body with
  | .normal s => .normal (cleanup s)
  | .thrown s => .thrown (cleanup s)

/-- Record an event. -/
def State.emit (s : State) (e : Event) : State :=
  { s with log := s.log ++ [e] }

/-- The variable `tipsChart` or `staffChart`. -/
def State.chart (s : State) : Slot → Option Chart
  | .tips => s.tipsChart
  | .staff => s.staffChart

/-- Assignment to `tipsChart` or `staffChart`. -/
def State.setChart (s : State) (slot : Slot) (c : Option Chart) : State :=
  match slot with
  | .tips => { s with tipsChart := c }
  | .staff => { s with staffChart := c }

/-- Number of `.chart-loading` elements in the card of a canvas. -/
def State.overlays (s : State) : Slot → Nat
  | .tips => s.tipsOverlays
  | .staff => s.staffOverlays

/-- The closure `setLoading(canvas, on)`: `querySelector` finds the first
overlay of the card; switching on appends one when there is none, switching off
removes the one found. -/
def setLoading (slot : Slot) (switchOn : Bool) (s : State) : State :=
  let n := s.overlays slot
  let n' := if switchOn then (if n = 0 then 1 else n) else (if n = 0 then n else n - 1)
  match slot with
  | .tips => { s with tipsOverlays := n' }
  | .staff => { s with staffOverlays := n' }

/-- The closure `fmtCents` as the y-axis callback `(v) => fmtCents(v)`. -/
def yTickCallback (money : ℚ → String) : Option ℚ → String :=
  fun v => fmtCents money v

/-- The tooltip callback of the tips chart. -/
def tipsTooltipLabel (money : ℚ → String) : String → Option ℚ → String :=
  fun label y => label ++ ": " ++ fmtCents money y

/-- The tooltip callback of the staff chart. -/
def staffTooltipLabel (money : ℚ → String) : String → Option ℚ → String :=
  fun _ y => fmtCents money y

/-- The configuration of the tips chart. -/
def tipsConfig (money : ℚ → String) (labels current previous : Json) : ChartConfig :=
  { type := .line
    labels := labels
    datasets := [⟨"Mes actual", current⟩, ⟨"Mes anterior", previous⟩]
    legend := true
    yTick := yTickCallback money
    tooltipLabel := tipsTooltipLabel money }

/-- The configuration of the staff chart. -/
def staffConfig (money : ℚ → String) (staff_labels staff_totals : Json) : ChartConfig :=
  { type := .bar
    labels := staff_labels
    datasets := [⟨"Propinas por trabajador", staff_totals⟩]
    legend := false
    yTick := yTickCallback money
    tooltipLabel := staffTooltipLabel money }

/-- Property read `payload.key` on a value that is not `null`:
`none` is `undefined`. -/
def Json.get? : Json → String → Option Json
  | .obj kvs, key => kvs.lookup key
  | _, _ => none

/-- The operand `x || []`. -/
def orEmpty : Option Json → Json
  | none => .arr []
  | some v => if v.truthy then v else .arr []

/-- The statement `if (chart){ chart.destroy(); chart = null; }`. -/
def destroySlot (slot : Slot) (s : State) : State :=
  match s.chart slot with
  | none => s
  | some c => (s.emit (.destroyed c.id)).setChart slot none

/-- The state after a `new Chart(el, config)` that got as far as registering
its instance: the library numbers the instance and it is live on the canvas. -/
def registerChart (slot : Slot) (cfg : ChartConfig) (s : State) : State :=
  ({ s with nextId := s.nextId + 1 } : State).emit
    (.constructed { id := s.nextId, canvas := slot, config := cfg })

/-- The state after `chart = new Chart(el, config)` when the constructor
returns: the instance is registered and the variable holds it. -/
def installChart (slot : Slot) (cfg : ChartConfig) (s : State) : State :=
  (registerChart slot cfg s).setChart slot
    (some { id := s.nextId, canvas := slot, config := cfg })

/-- The state a throwing `new Chart(el, config)` leaves: the instance is
registered or not, as the library had it, and nothing is assigned. -/
def failedChart (env : Env) (slot : Slot) (cfg : ChartConfig) (s : State) : State :=
  if env.registers slot cfg then registerChart slot cfg s else s

/-- The statement `chart = new Chart(el, config)`. -/
def newChart (env : Env) (slot : Slot) (cfg : ChartConfig) (s : State) : Completion :=
  if env.accepts slot cfg then .normal (installChart slot cfg s)
  else .thrown (failedChart env slot cfg s)

/-- The configuration `buildOrUpdate` gives the tips chart for a payload. -/
def payloadTipsConfig (env : Env) (payload : Json) : ChartConfig :=
  let labels := orEmpty (payload.get? "daily_labels")
  let current := orEmpty (payload.get? "daily_current")
  let previous := orEmpty (payload.get? "daily_previous")
  tipsConfig env.money labels current previous

/-- The configuration `buildOrUpdate` gives the staff chart for a payload. -/
def payloadStaffConfig (env : Env) (payload : Json) : ChartConfig :=
  let staff_labels := orEmpty (payload.get? "staff_labels")
  let staff_totals := orEmpty (payload.get? "staff_totals")
  staffConfig env.money staff_labels staff_totals

/-- The closure `buildOrUpdate(payload)`. Reading a property of `null` throws
before anything else happens. -/
def buildOrUpdate (env : Env) (payload : Json) (s : State) : Completion :=
  match payload with
  | .null => .thrown s
  | _ =>
    match newChart env .tips (payloadTipsConfig env payload) (destroySlot .tips s) with
    | .thrown s1 => .thrown s1
    | .normal s1 =>
      newChart env .staff (payloadStaffConfig env payload) (destroySlot .staff s1)

/-- How the request of one `fetchData` call turns out. -/
inductive FetchOutcome where
  /-- The promise returned by `fetch` rejects. -/
  | rejected
  /-- A response arrives; `body = none` when `res.json()` rejects. -/
  | response (status : Nat) (body : Option Json)

/-- The property `res.ok`. -/
def statusOk (status : Nat) : Bool :=
  decide (200 ≤ status) && decide (status ≤ 299)

/-- The outcomes in which no payload reaches `buildOrUpdate`. -/
def FetchOutcome.failed : FetchOutcome → Bool
  | .rejected => true
  | .response status body => !statusOk status || body.isNone

/-- The endpoint polled by `fetchData`. -/
def dataUrl : String := "/dashboard/restaurant/data"

/-- The part of `fetchData` that runs before the first `await`. -/
def fetchBegin (s : State) : State :=
  (setLoading .staff true (setLoading .tips true s)).emit (.request dataUrl)

/-- The body of the `try` block of `fetchData` once the request has settled. -/
def fetchTry (env : Env) (o : FetchOutcome) (s : State) : Completion :=
  match o with
  | .rejected => .thrown s
  | .response status body =>
    if statusOk status then
      match body with
      | none => .thrown s
      | some json => buildOrUpdate env json s
    else .thrown s

/-- The part of `fetchData` that runs once the request has settled. -/
def fetchComplete (env : Env) (o : FetchOutcome) (s : State) : Completion :=
  ((fetchTry env o s).catch
      (fun s1 => .normal (s1.emit (.consoleError "Chart data error")))).finally
    (fun s1 => setLoading .staff false (setLoading .tips false s1))

/-- One whole `fetchData()` call with no other code running in between. -/
def fetchData (env : Env) (o : FetchOutcome) (s : State) : Completion :=
  fetchComplete env o (fetchBegin s)

/-- The seed block of `initAdminCharts`; `seed` is the text content of
`#initialChartsData` when the element exists. -/
def seedBlock (env : Env) (seed : Option String) (s : State) : Completion :=
  Completion.catch
    (match seed with
      | none => .normal s
      | some text =>
        if text = "" then .normal s
        else
          match env.parse text with
          | none => .thrown s
          | some initial => buildOrUpdate env initial s)
    (fun s1 => .normal s1)

/-- The page `initAdminCharts` runs on. -/
structure Page where
  hasTipsEl : Bool
  hasStaffEl : Bool
  hasChartLib : Bool
  seed : Option String

/-- The body of `initAdminCharts()` after its guard, up to its return
(the first `fetchData()` call runs up to its first `await`). -/
def adminChartsBody (env : Env) (seed : Option String) : Completion :=
  match seedBlock env seed State.init with
  | .thrown s => .thrown s
  | .normal s => .normal ((fetchBegin s).emit (.interval 10000))

/-- The function `initAdminCharts()`; `none` when the guard returns early. -/
def initAdminCharts (env : Env) (page : Page) : Option Completion :=
  if !page.hasTipsEl || !page.hasStaffEl || !page.hasChartLib then none
  else some (adminChartsBody env page.seed)

/-! ### Live instances -/

/-- The effect of one event on the list of live chart instances. -/
def applyEvent (live : List Chart) : Event → List Chart
  | .constructed c => live ++ [c]
  | .destroyed id => live.filter (fun c => c.id != id)
  | _ => live

/-- The instances registered and not yet destroyed after a log of events. -/
def liveAfter (log : List Event) : List Chart :=
  log.foldl applyEvent []

/-- The live instances attached to one canvas. -/
def liveOn (live : List Chart) (slot : Slot) : List Chart :=
  live.filter (fun c => decide (c.canvas = slot))

/-- Whether a canvas carries a live instance. -/
def canvasInUse (s : State) (slot : Slot) : Bool :=
  !(liveOn (liveAfter s.log) slot).isEmpty

/-- The library refuses a canvas that is in use: called in state `s`, the
constructor throws without registering anything. -/
def LawfulAt (env : Env) (slot : Slot) (cfg : ChartConfig) (s : State) : Prop :=
  canvasInUse s slot = true → env.accepts slot cfg = false ∧ env.registers slot cfg = false

/-- The library refuses a canvas in use at both constructor calls of a rebuild
from `s`: the tips call after the tips slot was cleared, and the staff call
(reached when the tips constructor returned) after the staff slot was cleared. -/
def LawfulRebuild (env : Env) (payload : Json) (s : State) : Prop :=
  LawfulAt env .tips (payloadTipsConfig env payload) (destroySlot .tips s) ∧
  LawfulAt env .staff (payloadStaffConfig env payload)
    (destroySlot .staff (installChart .tips (payloadTipsConfig env payload)
      (destroySlot .tips s)))

/-- The library behaves as Chart.js does towards rebuilds from `s`. -/
def Lawful (env : Env) (s : State) : Prop :=
  ∀ payload, LawfulRebuild env payload s

/-- The states the refresher passes through: page load, then seed blocks,
request starts, request completions and timer installations in any order, the
chart library refusing a canvas that is in use. -/
inductive Reachable : State → Prop where
  | load : Reachable State.init
  | bootstrap (env : Env) (seed : Option String) {s : State} :
      Reachable s → Lawful env s → Reachable (seedBlock env seed s).state
  | begin {s : State} : Reachable s → Reachable (fetchBegin s)
  | complete (env : Env) (o : FetchOutcome) {s : State} :
      Reachable s → Lawful env s → Reachable (fetchComplete env o s).state
  | schedule (ms : Nat) {s : State} : Reachable s → Reachable (s.emit (.interval ms))

/-! ### What a chart shows -/

/-- The value `ctx.parsed.y` of a data point (an entry that is no number is a gap). -/
def pointY : Json → Option ℚ
  | .num n => some (n : ℚ)
  | _ => none

/-- One rendered series: its legend label, its values and the tooltip string of
each of its points. -/
structure SeriesView where
  label : String
  values : Json
  tooltips : List String

/-- What one chart shows. -/
structure ChartView where
  labels : Json
  series : List SeriesView

/-- The tooltip strings of one dataset under a configuration. -/
def seriesView (cfg : ChartConfig) (d : Dataset) : SeriesView :=
  { label := d.label
    values := d.data
    tooltips :=
      match d.data with
      | .arr xs => xs.map (fun v => cfg.tooltipLabel d.label (pointY v))
      | _ => [] }

/-- What a chart instance shows. -/
def Chart.view (c : Chart) : ChartView :=
  { labels := c.config.labels, series := c.config.datasets.map (seriesView c.config) }

/-- What the two slots show. -/
def State.view (s : State) : Option ChartView × Option ChartView :=
  (s.tipsChart.map Chart.view, s.staffChart.map Chart.view)

/-- The lengths of the series of a chart. -/
def Chart.seriesLengths (c : Chart) : List Nat :=
  c.config.datasets.map (fun d => d.data.length)

/-- A payload of the documented shape. -/
structure ChartPayload where
  daily_labels : List String
  daily_current : List Int
  daily_previous : List Int
  staff_labels : List String
  staff_totals : List Int

/-- The JSON document of a payload. -/
def ChartPayload.toJson (p : ChartPayload) : Json :=
  .obj [("daily_labels", .arr (p.daily_labels.map Json.str)),
        ("daily_current", .arr (p.daily_current.map Json.num)),
        ("daily_previous", .arr (p.daily_previous.map Json.num)),
        ("staff_labels", .arr (p.staff_labels.map Json.str)),
        ("staff_totals", .arr (p.staff_totals.map Json.num))]

/-- At most one live instance on each canvas. -/
def AtMostOneLive (live : List Chart) : Prop :=
  ∀ slot, (liveOn live slot).length ≤ 1

/-- At every moment of a log, at most one instance was live on each canvas. -/
def TraceOK (log : List Event) : Prop :=
  ∀ pre, pre <+: log → AtMostOneLive (liveAfter pre)

/-- The invariant of the refresher: the instance a variable holds is the one
live instance on its canvas, no canvas has more than one, ids are handed out in
increasing order, live instances on different canvases have different ids, and
the log never had two live instances on one canvas. -/
structure Inv (s : State) : Prop where
  slots : ∀ slot c, s.chart slot = some c → liveOn (liveAfter s.log) slot = [c]
  atMost : AtMostOneLive (liveAfter s.log)
  fresh : ∀ c ∈ liveAfter s.log, c.id < s.nextId
  ids : ∀ x ∈ liveAfter s.log, ∀ y ∈ liveAfter s.log, x.id = y.id → x.canvas = y.canvas
  trace : TraceOK s.log

/-- Every instance live in the second state was live in the first or was
constructed since. -/
def OnlyFreshAdded (s s1 : State) : Prop :=
  (∀ c ∈ liveAfter s1.log, c ∈ liveAfter s.log ∨ s.nextId ≤ c.id) ∧ s.nextId ≤ s1.nextId

/-- What the tips chart is to show for a payload: its day labels, the two
series, and for each point the tooltip `label: amount`. -/
def tipsViewOf (money : ℚ → String) (P : ChartPayload) : ChartView :=
  { labels := .arr (P.daily_labels.map Json.str)
    series :=
      [{ label := "Mes actual"
         values := .arr (P.daily_current.map Json.num)
         tooltips := P.daily_current.map (fun (v : Int) => "Mes actual: " ++ money (fdiv (v : ℚ) 100)) },
       { label := "Mes anterior"
         values := .arr (P.daily_previous.map Json.num)
         tooltips := P.daily_previous.map
           (fun (v : Int) => "Mes anterior: " ++ money (fdiv (v : ℚ) 100)) }] }

/-- What the staff chart is to show for a payload. -/
def staffViewOf (money : ℚ → String) (P : ChartPayload) : ChartView :=
  { labels := .arr (P.staff_labels.map Json.str)
    series :=
      [{ label := "Propinas por trabajador"
         values := .arr (P.staff_totals.map Json.num)
         tooltips := P.staff_totals.map (fun (v : Int) => money (fdiv (v : ℚ) 100)) }] }

/-- The payloads whose arrays are positionally aligned: each series has one
entry for each label. -/
def ChartPayload.aligned (P : ChartPayload) : Prop :=
  P.daily_current.length = P.daily_labels.length ∧
  P.daily_previous.length = P.daily_labels.length ∧
  P.staff_totals.length = P.staff_labels.length

/-! ### Concrete inputs used in the examples below -/

/-- A chart library that accepts every configuration, a formatter that prints
only the currency sign, and a parser that rejects every text. -/
def demoEnv : Env :=
  { money := fun _ => "€", accepts := fun _ _ => true, registers := fun _ _ => false,
    parse := fun _ => none }

/-- A chart library whose staff constructor throws after it registered the
instance. -/
def leakyEnv : Env :=
  { money := fun _ => "€", accepts := fun slot _ => decide (slot = .tips),
    registers := fun _ _ => true, parse := fun _ => none }

/-- A chart library whose staff constructor throws before registering. -/
def refusingEnv : Env :=
  { money := fun _ => "€", accepts := fun slot _ => decide (slot = .tips),
    registers := fun _ _ => false, parse := fun _ => none }

/-- The payload of the end-to-end scenario. -/
def demoPayload : ChartPayload :=
  { daily_labels := ["Mon", "Tue"], daily_current := [1000, 2000],
    daily_previous := [500, 1500], staff_labels := ["Alice"], staff_totals := [3000] }

/-- The page after the charts were rendered from `demoPayload`. -/
def demoState : State :=
  (buildOrUpdate demoEnv demoPayload.toJson State.init).state

/-- The freshly loaded page with a loading overlay in each card. -/
def loadingState : State :=
  { State.init with tipsOverlays := 1, staffOverlays := 1 }

/-- The page after a first refresh during which the staff constructor threw
after registering its instance. -/
def leakedState : State :=
  (fetchData leakyEnv (.response 200 (some demoPayload.toJson)) State.init).state

/-! ## Properties: star rating widget -/

theorem mem_classAdd (cls : List String) (tok t : String) :
    t ∈ classAdd cls tok ↔ t ∈ cls ∨ t = tok := by
  unfold classAdd
  split_ifs with h
  · constructor
    · intro ht; exact Or.inl ht
    · rintro (ht | rfl)
      · exact ht
      · exact h
  · simp

theorem mem_classRemove (cls : List String) (tok t : String) :
    t ∈ classRemove cls tok ↔ t ∈ cls ∧ t ≠ tok := by
  simp [classRemove]

theorem paintStar_filled (val : Option Int) (idx : Nat) (s : List String)
    (h : idxLt idx val = true) :
    starFilled (paintStar val idx s) ∧ ¬ starEmpty (paintStar val idx s) := by
  simp [paintStar, h, starFilled, starEmpty, mem_classAdd, mem_classRemove]

theorem paintStar_empty (val : Option Int) (idx : Nat) (s : List String)
    (h : idxLt idx val = false) :
    starEmpty (paintStar val idx s) ∧ ¬ starFilled (paintStar val idx s) := by
  simp [paintStar, h, starFilled, starEmpty, mem_classAdd, mem_classRemove]

theorem length_paintFrom (val : Option Int) (l : List (List String)) (i : Nat) :
    (paintFrom val i l).length = l.length := by
  induction l generalizing i with
  | nil => rfl
  | cons s rest ih => simp [paintFrom, ih]

theorem getElem?_paintFrom (val : Option Int) (l : List (List String)) (i k : Nat) :
    (paintFrom val i l)[k]? = (l[k]?).map (paintStar val (i + k)) := by
  induction l generalizing i k with
  | nil => simp [paintFrom]
  | cons s rest ih =>
    cases k with
    | zero => simp [paintFrom]
    | succ k =>
      have hk : i + 1 + k = i + (k + 1) := by omega
      simp only [paintFrom, List.getElem?_cons_succ, ih, hk]

theorem numToString_safe (v : Int) (h : v.natAbs ≤ 2 ^ 53) :
    numToString (some v) = toString v := by
  cases v with
  | ofNat m =>
    have hm : m ≤ 2 ^ 53 := by simpa using h
    simp only [numToString, natToString, hm, if_true]
    rfl
  | negSucc m =>
    have hm : m + 1 ≤ 2 ^ 53 := by simpa using h
    simp only [numToString, natToString, hm, if_true]
    rfl

/-- C10, as stated, fails: `val = 10^21` is an integer (and a double), and
after `set(val)` the hidden input holds the text `1e+21`, not the numeral
`1000000000000000000000` of `val`. -/
theorem set_stores_exponent_form :
    (StarInput.set ⟨"", [["bi"]]⟩ (some (10 ^ 21))).hidden = "1e+21" ∧
    toString ((10 : Int) ^ 21) = "1000000000000000000000" ∧
    nearestDouble (10 ^ 21) = 10 ^ 21 ∧
    (StarInput.set ⟨"", [["bi"]]⟩ (some (10 ^ 21))).hidden ≠ toString ((10 : Int) ^ 21) := by
  refine ⟨by decide, by decide, by decide, ?_⟩
  have h1 : (StarInput.set ⟨"", [["bi"]]⟩ (some (10 ^ 21))).hidden = "1e+21" := by decide
  have h2 : toString ((10 : Int) ^ 21) = "1000000000000000000000" := by decide
  rw [h1, h2]
  decide

/-- C10, amended: after `set(val)` with an integer `val` the hidden input holds
`String(val)`, which is the decimal numeral of `val` whenever `|val| ≤ 2^53`;
no star is added or lost, and the star at index `idx` is filled exactly when
`idx < val` and empty exactly otherwise, whatever its classes were; `val ≤ 0`
empties every star and `val ≥ n` fills every star. -/
theorem set_paints_stars (c : StarInput) (val : Int) :
    (c.set (some val)).hidden = numToString (some val) ∧
    (val.natAbs ≤ 2 ^ 53 → (c.set (some val)).hidden = toString val) ∧
    (c.set (some val)).stars.length = c.stars.length ∧
    (∀ (idx : Nat) (cls : List String), (c.set (some val)).stars[idx]? = some cls →
      (starFilled cls ↔ (idx : Int) < val) ∧ (starEmpty cls ↔ ¬ (idx : Int) < val)) ∧
    (val ≤ 0 → ∀ (idx : Nat) (cls : List String), (c.set (some val)).stars[idx]? = some cls → starEmpty cls) ∧
    ((c.stars.length : Int) ≤ val →
      ∀ (idx : Nat) (cls : List String), (c.set (some val)).stars[idx]? = some cls → starFilled cls) := by
  have key : ∀ (idx : Nat) (cls : List String), (c.set (some val)).stars[idx]? = some cls →
      (starFilled cls ↔ (idx : Int) < val) ∧ (starEmpty cls ↔ ¬ (idx : Int) < val) := by
    intro idx cls h
    simp only [StarInput.set, getElem?_paintFrom, Option.map_eq_some', zero_add] at h
    obtain ⟨s, _, rfl⟩ := h
    by_cases hlt : (idx : Int) < val
    · have hb : idxLt idx (some val) = true := by simp [idxLt, hlt]
      have := paintStar_filled (some val) idx s hb
      simp [hlt, this.1, this.2]
    · have hb : idxLt idx (some val) = false := by simp [idxLt, hlt]
      have := paintStar_empty (some val) idx s hb
      simp [hlt, this.1, this.2]
  refine ⟨rfl, fun hv => numToString_safe val hv, ?_, key, ?_, ?_⟩
  · simp [StarInput.set, length_paintFrom]
  · intro hval idx cls h
    have hnot : ¬ (idx : Int) < val := by omega
    exact ((key idx cls h).2).2 hnot
  · intro hval idx cls h
    have hidx : idx < (c.set (some val)).stars.length := by
      by_contra hge
      rw [List.getElem?_eq_none (by omega)] at h
      cases h
    have hlen : (c.set (some val)).stars.length = c.stars.length := by
      simp [StarInput.set, length_paintFrom]
    have hlt : (idx : Int) < val := by omega
    exact ((key idx cls h).1).2 hlt

/-- C10 (amended) at a container of three stars with stale classes and
`val = 2`: the hidden input holds `2`, the second star is filled and the third
is empty. -/
theorem set_paints_stars_witness :
    (StarInput.set ⟨"", [["bi", "bi-star"], ["bi"], ["bi", "bi-star-fill", "text-warning"]]⟩
      (some 2)).hidden = "2" ∧
    starFilled ["bi", "bi-star-fill", "text-warning"] ∧
    starEmpty ["bi", "bi-star"] :=
  let c : StarInput :=
    { hidden := "", stars := [["bi", "bi-star"], ["bi"], ["bi", "bi-star-fill", "text-warning"]] }
  ⟨(set_paints_stars c 2).2.1 (by decide),
    ((set_paints_stars c 2).2.2.2.1 1 ["bi", "bi-star-fill", "text-warning"] (by decide)).1.2
      (by decide),
    ((set_paints_stars c 2).2.2.2.1 2 ["bi", "bi-star"] (by decide)).2.2 (by decide)⟩

/-! ## Properties: theme toggle -/

theorem strictEqStr_iff (mode : Option Json) (t : String) :
    strictEqStr mode t = true ↔ mode = some (Json.str t) := by
  cases mode with
  | none => simp [strictEqStr]
  | some v => cases v <;> simp [strictEqStr]

theorem getItem_setItem (st : List (String × String)) (key value : String) :
    getItem (setItem st key value) key = some value := by
  simp [getItem, setItem, List.lookup]

theorem mem_classToggle (cls : List String) (tok : String) (force : Bool) :
    tok ∈ classToggle cls tok force ↔ force = true := by
  cases force <;> simp [classToggle, mem_classAdd, mem_classRemove]

theorem applyTheme_stored (mode : Option Json) (d : ThemeDom) :
    getItem (applyTheme true mode d).storage "theme.mode" =
      some (if strictEqStr mode "dark" then "dark" else "light") := by
  simp [applyTheme, getItem_setItem]

theorem applyTheme_class (writable : Bool) (mode : Option Json) (d : ThemeDom) :
    "theme-dark" ∈ (applyTheme writable mode d).bodyClasses ↔ mode = some (Json.str "dark") := by
  simp [applyTheme, mem_classToggle, strictEqStr_iff]

/-- C9: after `applyTheme(mode)` with a storage write that goes through, the
stored `theme.mode` is `"dark"` when `mode` is exactly the string `"dark"` and
`"light"` for every other value, the body carries `theme-dark` exactly when the
stored value is `"dark"`, and the same holds for the value `initThemeToggle`
reads back from storage and for the click handler. -/
theorem applyTheme_persists_light_or_dark (mode : Option Json) (d : ThemeDom)
    (readable : Bool) :
    (mode = some (Json.str "dark") →
      getItem (applyTheme true mode d).storage "theme.mode" = some "dark") ∧
    (mode ≠ some (Json.str "dark") →
      getItem (applyTheme true mode d).storage "theme.mode" = some "light") ∧
    ("theme-dark" ∈ (applyTheme true mode d).bodyClasses ↔
      getItem (applyTheme true mode d).storage "theme.mode" = some "dark") ∧
    (getItem (initThemeToggle readable true d).storage "theme.mode" = some "light" ∨
      getItem (initThemeToggle readable true d).storage "theme.mode" = some "dark") ∧
    ("theme-dark" ∈ (initThemeToggle readable true d).bodyClasses ↔
      getItem (initThemeToggle readable true d).storage "theme.mode" = some "dark") ∧
    (getItem (themeToggleClick true d).storage "theme.mode" = some "light" ∨
      getItem (themeToggleClick true d).storage "theme.mode" = some "dark") ∧
    ("theme-dark" ∈ (themeToggleClick true d).bodyClasses ↔
      getItem (themeToggleClick true d).storage "theme.mode" = some "dark") := by
  have both : ∀ m : Option Json,
      (getItem (applyTheme true m d).storage "theme.mode" = some "light" ∨
        getItem (applyTheme true m d).storage "theme.mode" = some "dark") ∧
      ("theme-dark" ∈ (applyTheme true m d).bodyClasses ↔
        getItem (applyTheme true m d).storage "theme.mode" = some "dark") := by
    intro m
    rw [applyTheme_stored, applyTheme_class]
    by_cases hm : m = some (Json.str "dark")
    · subst hm
      simp [strictEqStr]
    · have hb : strictEqStr m "dark" = false := by
        cases hs : strictEqStr m "dark"
        · rfl
        · exact absurd ((strictEqStr_iff m "dark").1 hs) hm
      simp [hb, hm]
  refine ⟨?_, ?_, (both mode).2, (both _).1, (both _).2, (both _).1, (both _).2⟩
  · intro hm
    subst hm
    rw [applyTheme_stored]
    simp [strictEqStr]
  · intro hm
    have hb : strictEqStr mode "dark" = false := by
      cases hs : strictEqStr mode "dark"
      · rfl
      · exact absurd ((strictEqStr_iff mode "dark").1 hs) hm
    rw [applyTheme_stored]
    simp [hb]

/-- C9 at the stored value `"sepia"` and the mode `"DARK"`: `"light"` is persisted. -/
theorem applyTheme_persists_light_or_dark_witness :
    getItem (applyTheme true (some (Json.str "DARK"))
      { bodyClasses := ["theme-dark"], storage := [("theme.mode", "sepia")],
        iconClass := none }).storage "theme.mode" = some "light" :=
  (applyTheme_persists_light_or_dark (some (Json.str "DARK"))
    { bodyClasses := ["theme-dark"], storage := [("theme.mode", "sepia")], iconClass := none }
    true).2.1 (by simp)

/-! ## Properties: currency formatting -/

theorem abs_roundHalfEven_sub_le (x : ℚ) : |(roundHalfEven x : ℚ) - x| ≤ 1 / 2 := by
  have h1 : (⌊x⌋ : ℚ) ≤ x := Int.floor_le x
  have h2 : x < ⌊x⌋ + 1 := Int.lt_floor_add_one x
  unfold roundHalfEven
  simp only
  split_ifs with a b c
  · rw [abs_le]; constructor <;> linarith
  · push_cast; rw [abs_le]; constructor <;> linarith
  · rw [abs_le]; constructor <;> linarith
  · push_cast; rw [abs_le]; constructor <;> linarith

theorem roundHalfEven_eq (x : ℚ) (z : ℤ) (h : |x - z| < 1 / 2) : roundHalfEven x = z := by
  have h1 : (⌊x⌋ : ℚ) ≤ x := Int.floor_le x
  have h2 : x < ⌊x⌋ + 1 := Int.lt_floor_add_one x
  rw [abs_lt] at h
  obtain ⟨h3, h4⟩ := h
  unfold roundHalfEven
  simp only
  split_ifs with a b c
  · have e1 : ((⌊x⌋ : ℤ) : ℚ) < z + 1 := by linarith
    have e2 : (z : ℚ) < ⌊x⌋ + 1 := by linarith
    have e3 : ⌊x⌋ < z + 1 := by exact_mod_cast e1
    have e4 : z < ⌊x⌋ + 1 := by exact_mod_cast e2
    omega
  · have e1 : ((⌊x⌋ : ℤ) : ℚ) < z := by linarith
    have e2 : (z : ℚ) < ⌊x⌋ + 2 := by linarith
    have e3 : ⌊x⌋ < z := by exact_mod_cast e1
    have e4 : z < ⌊x⌋ + 2 := by exact_mod_cast e2
    omega
  · exfalso
    have hx : x - ⌊x⌋ = 1 / 2 := le_antisymm (not_lt.1 b) (not_lt.1 a)
    have e1 : ((⌊x⌋ : ℤ) : ℚ) < z := by linarith
    have e2 : (z : ℚ) < ⌊x⌋ + 1 := by linarith
    have e3 : ⌊x⌋ < z := by exact_mod_cast e1
    have e4 : z < ⌊x⌋ + 1 := by exact_mod_cast e2
    omega
  · exfalso
    have hx : x - ⌊x⌋ = 1 / 2 := le_antisymm (not_lt.1 b) (not_lt.1 a)
    have e1 : ((⌊x⌋ : ℤ) : ℚ) < z := by linarith
    have e2 : (z : ℚ) < ⌊x⌋ + 1 := by linarith
    have e3 : ⌊x⌋ < z := by exact_mod_cast e1
    have e4 : z < ⌊x⌋ + 1 := by exact_mod_cast e2
    omega

/-- Rounding to a double moves a number by at most half a unit in the last place. -/
theorem abs_toDouble_sub_le (q : ℚ) : |toDouble q - q| ≤ 2 ^ ulpExponent q / 2 := by
  have hp : (0 : ℚ) < 2 ^ ulpExponent q := zpow_pos (by norm_num) _
  unfold toDouble
  split_ifs with h0
  · rw [h0]; simp; positivity
  · have hr := abs_roundHalfEven_sub_le (q / 2 ^ ulpExponent q)
    have e : (roundHalfEven (q / 2 ^ ulpExponent q) : ℚ) * 2 ^ ulpExponent q - q =
        ((roundHalfEven (q / 2 ^ ulpExponent q) : ℚ) - q / 2 ^ ulpExponent q) *
          2 ^ ulpExponent q := by
      field_simp
    rw [e, abs_mul, abs_of_pos hp]
    calc |(roundHalfEven (q / 2 ^ ulpExponent q) : ℚ) - q / 2 ^ ulpExponent q| *
          2 ^ ulpExponent q ≤ 1 / 2 * 2 ^ ulpExponent q :=
          mul_le_mul_of_nonneg_right hr hp.le
      _ = 2 ^ ulpExponent q / 2 := by ring

theorem ulpExponent_le (q : ℚ) (hpos : 0 < q) (h : q < 2 ^ (46 : ℤ)) :
    ulpExponent q ≤ -7 := by
  unfold ulpExponent
  rw [abs_of_pos hpos]
  have hl : Int.log 2 q < 46 :=
    (Int.lt_zpow_iff_log_lt (b := 2) (x := 46) (by norm_num) hpos).1 (by exact_mod_cast h)
  rw [max_le_iff]
  constructor
  · omega
  · norm_num

/-- Below `2^46` a double is within `1/256` of the number it stands for. -/
theorem abs_toDouble_sub_le_small (q : ℚ) (hq : 0 ≤ q) (h : q < 2 ^ (46 : ℤ)) :
    |toDouble q - q| ≤ 1 / 256 := by
  rcases hq.eq_or_lt with h0 | hpos
  · rw [← h0]; simp [toDouble]
  · have h1 := abs_toDouble_sub_le q
    have h2 := ulpExponent_le q hpos h
    have h3 : (2 : ℚ) ^ ulpExponent q ≤ 2 ^ (-7 : ℤ) := zpow_le_zpow_right₀ (by norm_num) h2
    have h4 : (2 : ℚ) ^ (-7 : ℤ) = 1 / 128 := by norm_num
    rw [h4] at h3
    linarith

theorem ulpExponent_eq (q : ℚ) (n : ℤ) (hpos : 0 < q) (h1 : 2 ^ n ≤ q)
    (h2 : q < 2 ^ (n + 1)) (hn : -1074 ≤ n - 52) : ulpExponent q = n - 52 := by
  unfold ulpExponent
  rw [abs_of_pos hpos]
  have hl1 : n ≤ Int.log 2 q :=
    (Int.zpow_le_iff_le_log (b := 2) (by norm_num) hpos).1 (by exact_mod_cast h1)
  have hl2 : Int.log 2 q < n + 1 :=
    (Int.lt_zpow_iff_log_lt (b := 2) (by norm_num) hpos).1 (by exact_mod_cast h2)
  have : Int.log 2 q = n := by omega
  rw [this]
  exact max_eq_left hn

theorem toDouble_eq (q : ℚ) (e z : ℤ) (hq : q ≠ 0) (he : ulpExponent q = e)
    (hz : |q / 2 ^ e - z| < 1 / 2) : toDouble q = z * 2 ^ e := by
  unfold toDouble
  rw [if_neg hq, he, roundHalfEven_eq _ z hz]

theorem fdiv_zero : fdiv 0 100 = 0 := by
  simp [fdiv, toDouble]

theorem fmtCents_some (money : ℚ → String) (q : ℚ) :
    fmtCents money (some q) = money (fdiv q 100) := by
  show money (fdiv (if q = 0 then 0 else q) 100) = _
  split_ifs with h
  · rw [h]
  · rfl

/-- The quotient the code forms for `v = 9007199254740893` minor units. -/
theorem fdiv_large_amount : fdiv 9007199254740893 100 = 1441151880758543 / 16 := by
  unfold fdiv
  have he : ulpExponent (9007199254740893 / 100) = -6 := by
    have := ulpExponent_eq (9007199254740893 / 100) 46 (by norm_num) (by norm_num)
      (by norm_num) (by norm_num)
    simpa using this
  rw [toDouble_eq _ (-6) 5764607523034172 (by norm_num) he
    (by rw [abs_lt]; constructor <;> norm_num)]
  norm_num

/-! ## Properties: the chart refresher -/

@[simp] theorem emit_tipsChart (s : State) (e : Event) : (s.emit e).tipsChart = s.tipsChart := rfl
@[simp] theorem emit_staffChart (s : State) (e : Event) :
    (s.emit e).staffChart = s.staffChart := rfl
@[simp] theorem emit_nextId (s : State) (e : Event) : (s.emit e).nextId = s.nextId := rfl
@[simp] theorem emit_tipsOverlays (s : State) (e : Event) :
    (s.emit e).tipsOverlays = s.tipsOverlays := rfl
@[simp] theorem emit_staffOverlays (s : State) (e : Event) :
    (s.emit e).staffOverlays = s.staffOverlays := rfl
@[simp] theorem emit_log (s : State) (e : Event) : (s.emit e).log = s.log ++ [e] := rfl
@[simp] theorem emit_chart (s : State) (e : Event) (slot : Slot) :
    (s.emit e).chart slot = s.chart slot := by cases slot <;> rfl

@[simp] theorem setChart_chart_same (s : State) (slot : Slot) (c : Option Chart) :
    (s.setChart slot c).chart slot = c := by cases slot <;> rfl
theorem setChart_chart_other (s : State) (slot other : Slot) (c : Option Chart)
    (h : other ≠ slot) : (s.setChart slot c).chart other = s.chart other := by
  cases slot <;> cases other <;> first | rfl | exact absurd rfl h
@[simp] theorem setChart_nextId (s : State) (slot : Slot) (c : Option Chart) :
    (s.setChart slot c).nextId = s.nextId := by cases slot <;> rfl
@[simp] theorem setChart_tipsOverlays (s : State) (slot : Slot) (c : Option Chart) :
    (s.setChart slot c).tipsOverlays = s.tipsOverlays := by cases slot <;> rfl
@[simp] theorem setChart_staffOverlays (s : State) (slot : Slot) (c : Option Chart) :
    (s.setChart slot c).staffOverlays = s.staffOverlays := by cases slot <;> rfl
@[simp] theorem setChart_log (s : State) (slot : Slot) (c : Option Chart) :
    (s.setChart slot c).log = s.log := by cases slot <;> rfl

@[simp] theorem setLoading_tipsChart (slot : Slot) (b : Bool) (s : State) :
    (setLoading slot b s).tipsChart = s.tipsChart := by cases slot <;> rfl
@[simp] theorem setLoading_staffChart (slot : Slot) (b : Bool) (s : State) :
    (setLoading slot b s).staffChart = s.staffChart := by cases slot <;> rfl
@[simp] theorem setLoading_chart (slot other : Slot) (b : Bool) (s : State) :
    (setLoading slot b s).chart other = s.chart other := by
  cases slot <;> cases other <;> rfl
@[simp] theorem setLoading_nextId (slot : Slot) (b : Bool) (s : State) :
    (setLoading slot b s).nextId = s.nextId := by cases slot <;> rfl
@[simp] theorem setLoading_log (slot : Slot) (b : Bool) (s : State) :
    (setLoading slot b s).log = s.log := by cases slot <;> rfl

@[simp] theorem destroySlot_tipsOverlays (slot : Slot) (s : State) :
    (destroySlot slot s).tipsOverlays = s.tipsOverlays := by
  unfold destroySlot; split <;> simp
@[simp] theorem destroySlot_staffOverlays (slot : Slot) (s : State) :
    (destroySlot slot s).staffOverlays = s.staffOverlays := by
  unfold destroySlot; split <;> simp
@[simp] theorem destroySlot_nextId (slot : Slot) (s : State) :
    (destroySlot slot s).nextId = s.nextId := by
  unfold destroySlot; split <;> simp
@[simp] theorem destroySlot_chart_same (slot : Slot) (s : State) :
    (destroySlot slot s).chart slot = none := by
  unfold destroySlot; split <;> simp [*]
theorem destroySlot_chart_other (slot other : Slot) (s : State) (h : other ≠ slot) :
    (destroySlot slot s).chart other = s.chart other := by
  unfold destroySlot; split <;> simp [setChart_chart_other, h]

@[simp] theorem registerChart_tipsOverlays (slot : Slot) (cfg : ChartConfig) (s : State) :
    (registerChart slot cfg s).tipsOverlays = s.tipsOverlays := rfl
@[simp] theorem registerChart_staffOverlays (slot : Slot) (cfg : ChartConfig) (s : State) :
    (registerChart slot cfg s).staffOverlays = s.staffOverlays := rfl
@[simp] theorem registerChart_nextId (slot : Slot) (cfg : ChartConfig) (s : State) :
    (registerChart slot cfg s).nextId = s.nextId + 1 := rfl
@[simp] theorem registerChart_chart (slot other : Slot) (cfg : ChartConfig) (s : State) :
    (registerChart slot cfg s).chart other = s.chart other := by cases other <;> rfl
@[simp] theorem registerChart_log (slot : Slot) (cfg : ChartConfig) (s : State) :
    (registerChart slot cfg s).log =
      s.log ++ [.constructed { id := s.nextId, canvas := slot, config := cfg }] := rfl

@[simp] theorem installChart_tipsOverlays (slot : Slot) (cfg : ChartConfig) (s : State) :
    (installChart slot cfg s).tipsOverlays = s.tipsOverlays := by simp [installChart]
@[simp] theorem installChart_staffOverlays (slot : Slot) (cfg : ChartConfig) (s : State) :
    (installChart slot cfg s).staffOverlays = s.staffOverlays := by simp [installChart]
@[simp] theorem installChart_nextId (slot : Slot) (cfg : ChartConfig) (s : State) :
    (installChart slot cfg s).nextId = s.nextId + 1 := by simp [installChart]
@[simp] theorem installChart_chart_same (slot : Slot) (cfg : ChartConfig) (s : State) :
    (installChart slot cfg s).chart slot =
      some { id := s.nextId, canvas := slot, config := cfg } := by simp [installChart]
theorem installChart_chart_other (slot other : Slot) (cfg : ChartConfig) (s : State)
    (h : other ≠ slot) : (installChart slot cfg s).chart other = s.chart other := by
  simp [installChart, setChart_chart_other, h]
@[simp] theorem installChart_log (slot : Slot) (cfg : ChartConfig) (s : State) :
    (installChart slot cfg s).log =
      s.log ++ [.constructed { id := s.nextId, canvas := slot, config := cfg }] := by
  simp [installChart]

@[simp] theorem failedChart_tipsOverlays (env : Env) (slot : Slot) (cfg : ChartConfig)
    (s : State) : (failedChart env slot cfg s).tipsOverlays = s.tipsOverlays := by
  unfold failedChart; split <;> rfl
@[simp] theorem failedChart_staffOverlays (env : Env) (slot : Slot) (cfg : ChartConfig)
    (s : State) : (failedChart env slot cfg s).staffOverlays = s.staffOverlays := by
  unfold failedChart; split <;> rfl
@[simp] theorem failedChart_chart (env : Env) (slot other : Slot) (cfg : ChartConfig)
    (s : State) : (failedChart env slot cfg s).chart other = s.chart other := by
  unfold failedChart; split <;> simp

theorem chart_tips (s : State) : s.chart .tips = s.tipsChart := rfl
theorem chart_staff (s : State) : s.chart .staff = s.staffChart := rfl

/-- The four ways `buildOrUpdate` can run. -/
theorem buildOrUpdate_cases (env : Env) (payload : Json) (s : State) :
    (payload = Json.null ∧ buildOrUpdate env payload s = .thrown s) ∨
    (payload ≠ Json.null ∧ env.accepts .tips (payloadTipsConfig env payload) = false ∧
      buildOrUpdate env payload s =
        .thrown (failedChart env .tips (payloadTipsConfig env payload)
          (destroySlot .tips s))) ∨
    (payload ≠ Json.null ∧ env.accepts .tips (payloadTipsConfig env payload) = true ∧
      env.accepts .staff (payloadStaffConfig env payload) = false ∧
      buildOrUpdate env payload s =
        .thrown (failedChart env .staff (payloadStaffConfig env payload) (destroySlot .staff
          (installChart .tips (payloadTipsConfig env payload) (destroySlot .tips s))))) ∨
    (payload ≠ Json.null ∧ env.accepts .tips (payloadTipsConfig env payload) = true ∧
      env.accepts .staff (payloadStaffConfig env payload) = true ∧
      buildOrUpdate env payload s = .normal (installChart .staff (payloadStaffConfig env payload)
        (destroySlot .staff
          (installChart .tips (payloadTipsConfig env payload) (destroySlot .tips s))))) := by
  by_cases hn : payload = Json.null
  · subst hn
    exact Or.inl ⟨rfl, rfl⟩
  · right
    have hb : buildOrUpdate env payload s =
        match newChart env .tips (payloadTipsConfig env payload) (destroySlot .tips s) with
        | .thrown s1 => .thrown s1
        | .normal s1 =>
          newChart env .staff (payloadStaffConfig env payload) (destroySlot .staff s1) := by
      cases payload <;> first | exact absurd rfl hn | rfl
    rw [hb]
    cases ht : env.accepts .tips (payloadTipsConfig env payload)
    · exact Or.inl ⟨hn, rfl, by simp [newChart, ht]⟩
    · right
      cases hs : env.accepts .staff (payloadStaffConfig env payload)
      · exact Or.inl ⟨hn, rfl, rfl, by simp [newChart, ht, hs]⟩
      · exact Or.inr ⟨hn, rfl, rfl, by simp [newChart, ht, hs]⟩

theorem setLoading_tipsOverlays (slot : Slot) (b : Bool) (s : State) :
    (setLoading slot b s).tipsOverlays =
      match slot with
      | .tips => if b then (if s.tipsOverlays = 0 then 1 else s.tipsOverlays)
          else s.tipsOverlays - 1
      | .staff => s.tipsOverlays := by
  cases slot <;> cases b <;> simp [setLoading, State.overlays]
  intro h; simp [h]

theorem setLoading_staffOverlays (slot : Slot) (b : Bool) (s : State) :
    (setLoading slot b s).staffOverlays =
      match slot with
      | .staff => if b then (if s.staffOverlays = 0 then 1 else s.staffOverlays)
          else s.staffOverlays - 1
      | .tips => s.staffOverlays := by
  cases slot <;> cases b <;> simp [setLoading, State.overlays]
  intro h; simp [h]

theorem buildOrUpdate_overlays (env : Env) (payload : Json) (s : State) :
    (buildOrUpdate env payload s).state.tipsOverlays = s.tipsOverlays ∧
    (buildOrUpdate env payload s).state.staffOverlays = s.staffOverlays := by
  rcases buildOrUpdate_cases env payload s with
    ⟨_, h⟩ | ⟨_, _, h⟩ | ⟨_, _, _, h⟩ | ⟨_, _, _, h⟩ <;> simp [h, Completion.state]

theorem fetchTry_rejected (env : Env) (s : State) :
    fetchTry env .rejected s = .thrown s := rfl

theorem fetchTry_bad_status (env : Env) (status : Nat) (body : Option Json) (s : State)
    (h : statusOk status = false) : fetchTry env (.response status body) s = .thrown s := by
  simp [fetchTry, h]

theorem fetchTry_no_body (env : Env) (status : Nat) (s : State) :
    fetchTry env (.response status none) s = .thrown s := by
  simp [fetchTry]

theorem fetchTry_body (env : Env) (status : Nat) (json : Json) (s : State)
    (h : statusOk status = true) :
    fetchTry env (.response status (some json)) s = buildOrUpdate env json s := by
  simp [fetchTry, h]

theorem fetchTry_failed (env : Env) (o : FetchOutcome) (s : State) (h : o.failed = true) :
    fetchTry env o s = .thrown s := by
  cases o with
  | rejected => rfl
  | response status body =>
    cases body with
    | none => exact fetchTry_no_body env status s
    | some json =>
      have hs : statusOk status = false := by simpa [FetchOutcome.failed] using h
      exact fetchTry_bad_status env status _ s hs

theorem fetchTry_overlays (env : Env) (o : FetchOutcome) (s : State) :
    (fetchTry env o s).state.tipsOverlays = s.tipsOverlays ∧
    (fetchTry env o s).state.staffOverlays = s.staffOverlays := by
  cases o with
  | rejected => exact ⟨rfl, rfl⟩
  | response status body =>
    cases hs : statusOk status
    · rw [fetchTry_bad_status env status body s hs]; exact ⟨rfl, rfl⟩
    · cases body with
      | none => rw [fetchTry_no_body]; exact ⟨rfl, rfl⟩
      | some json => rw [fetchTry_body env status json s hs]; exact buildOrUpdate_overlays env json s

/-- The shape of every completed request: the `catch` turns a throw into a
console entry and the `finally` switches both overlays off. -/
theorem fetchComplete_eq (env : Env) (o : FetchOutcome) (s : State) :
    fetchComplete env o s = .normal (setLoading .staff false (setLoading .tips false
      (match fetchTry env o s with
        | .normal s1 => s1
        | .thrown s1 => s1.emit (.consoleError "Chart data error")))) := by
  unfold fetchComplete
  cases fetchTry env o s <;> rfl

theorem fetchComplete_overlays (env : Env) (o : FetchOutcome) (s : State) :
    (fetchComplete env o s).state.tipsOverlays = s.tipsOverlays - 1 ∧
    (fetchComplete env o s).state.staffOverlays = s.staffOverlays - 1 := by
  have h := fetchTry_overlays env o s
  rw [fetchComplete_eq]
  cases hc : fetchTry env o s <;>
    simp [hc, Completion.state, setLoading_tipsOverlays, setLoading_staffOverlays] at h ⊢ <;>
    simp [h]

theorem fetchBegin_overlays (s : State) :
    (fetchBegin s).tipsOverlays = (if s.tipsOverlays = 0 then 1 else s.tipsOverlays) ∧
    (fetchBegin s).staffOverlays = (if s.staffOverlays = 0 then 1 else s.staffOverlays) := by
  simp [fetchBegin, setLoading_tipsOverlays, setLoading_staffOverlays]

theorem seedBlock_eq (env : Env) (seed : Option String) (s : State) :
    seedBlock env seed s = .normal
      (match seed with
        | none => s
        | some text =>
          if text = "" then s
          else
            match env.parse text with
            | none => s
            | some initial => (buildOrUpdate env initial s).state) := by
  unfold seedBlock
  cases seed with
  | none => rfl
  | some text =>
    by_cases ht : text = ""
    · simp [ht, Completion.catch]
    · cases hp : env.parse text with
      | none => simp [ht, hp, Completion.catch]
      | some initial =>
        simp only [ht, hp, if_false]
        cases buildOrUpdate env initial s <;> rfl

theorem seedBlock_overlays (env : Env) (seed : Option String) (s : State) :
    (seedBlock env seed s).state.tipsOverlays = s.tipsOverlays ∧
    (seedBlock env seed s).state.staffOverlays = s.staffOverlays := by
  rw [seedBlock_eq]
  cases seed with
  | none => exact ⟨rfl, rfl⟩
  | some text =>
    by_cases ht : text = ""
    · simp [ht, Completion.state]
    · cases hp : env.parse text with
      | none => simp [ht, hp, Completion.state]
      | some initial =>
        simp only [ht, hp, if_false, Completion.state]
        exact buildOrUpdate_overlays env initial s

/-- C1: from every prior state in which neither card holds more than one
loading overlay, and for every outcome of the request (rejected, any status,
undecodable body, any body, the chart library throwing or not), a `fetchData`
call shows one overlay in each card while the request is out and completes
without an exception and with no overlay left in the tips card or the staff
card; the same holds for the completion half alone, whatever ran since the
request was sent. -/
theorem fetchData_clears_loading (env : Env) (o : FetchOutcome) (s : State)
    (ht : s.tipsOverlays ≤ 1) (hs : s.staffOverlays ≤ 1) :
    (fetchBegin s).tipsOverlays = 1 ∧
    (fetchBegin s).staffOverlays = 1 ∧
    (fetchData env o s).isThrown = false ∧
    (fetchData env o s).state.tipsOverlays = 0 ∧
    (fetchData env o s).state.staffOverlays = 0 ∧
    (fetchComplete env o s).isThrown = false ∧
    (fetchComplete env o s).state.tipsOverlays = 0 ∧
    (fetchComplete env o s).state.staffOverlays = 0 := by
  obtain ⟨hb1, hb2⟩ := fetchBegin_overlays s
  have h1 := fetchComplete_overlays env o (fetchBegin s)
  have h2 := fetchComplete_overlays env o s
  have e1 : (fetchBegin s).tipsOverlays = 1 := by rw [hb1]; split_ifs <;> omega
  have e2 : (fetchBegin s).staffOverlays = 1 := by rw [hb2]; split_ifs <;> omega
  refine ⟨e1, e2, ?_, ?_, ?_, ?_, ?_, ?_⟩
  · unfold fetchData; rw [fetchComplete_eq]; rfl
  · unfold fetchData; omega
  · unfold fetchData; omega
  · rw [fetchComplete_eq]; rfl
  · omega
  · omega

/-- C1 on a page whose two cards already show a loading overlay, with a server
answering 500: both overlays are gone when the call completes. -/
theorem fetchData_clears_loading_witness :
    loadingState.tipsOverlays = 1 ∧
    (fetchData demoEnv (.response 500 none) loadingState).state.tipsOverlays = 0 ∧
    (fetchData demoEnv (.response 500 none) loadingState).state.staffOverlays = 0 :=
  ⟨rfl,
    (fetchData_clears_loading demoEnv (.response 500 none) loadingState
      (Nat.le_refl 1) (Nat.le_refl 1)).2.2.2.1,
    (fetchData_clears_loading demoEnv (.response 500 none) loadingState
      (Nat.le_refl 1) (Nat.le_refl 1)).2.2.2.2.1⟩

theorem liveAfter_concat (log : List Event) (e : Event) :
    liveAfter (log ++ [e]) = applyEvent (liveAfter log) e := by
  simp [liveAfter, List.foldl_append]

/-- The state a failed request leaves: the state at the start of the call with
the request and the console entry added to the log and the overlays cleared. -/
theorem fetchData_failed_eq (env : Env) (o : FetchOutcome) (s : State) (h : o.failed = true) :
    fetchData env o s = .normal (setLoading .staff false (setLoading .tips false
      ((fetchBegin s).emit (.consoleError "Chart data error")))) := by
  unfold fetchData
  rw [fetchComplete_eq, fetchTry_failed env o _ h]

/-- C2: when a refresh fails (request rejected, status outside 200-299, or body
not decodable) the two chart variables hold the very instances they held
before, no instance has been constructed or destroyed, what the charts show is
unchanged, and the failure is written to the console; the completion half
alone likewise leaves the charts as they were when the request settled. -/
theorem fetchData_failure_keeps_charts (env : Env) (o : FetchOutcome) (s : State)
    (h : o.failed = true) :
    (fetchData env o s).state.tipsChart = s.tipsChart ∧
    (fetchData env o s).state.staffChart = s.staffChart ∧
    liveAfter (fetchData env o s).state.log = liveAfter s.log ∧
    (fetchData env o s).state.view = s.view ∧
    (fetchData env o s).state.nextId = s.nextId ∧
    (fetchData env o s).state.log =
      s.log ++ [.request dataUrl, .consoleError "Chart data error"] ∧
    (fetchComplete env o s).state.tipsChart = s.tipsChart ∧
    (fetchComplete env o s).state.staffChart = s.staffChart ∧
    liveAfter (fetchComplete env o s).state.log = liveAfter s.log := by
  have hc : fetchComplete env o s = .normal (setLoading .staff false (setLoading .tips false
      (s.emit (.consoleError "Chart data error")))) := by
    rw [fetchComplete_eq, fetchTry_failed env o _ h]
  rw [fetchData_failed_eq env o s h, hc]
  refine ⟨?_, ?_, ?_, ?_, ?_, ?_, ?_, ?_, ?_⟩
  · simp [Completion.state, fetchBegin]
  · simp [Completion.state, fetchBegin]
  · simp only [Completion.state, setLoading_log, emit_log, fetchBegin, liveAfter_concat]
    rfl
  · simp [Completion.state, fetchBegin, State.view]
  · simp [Completion.state, fetchBegin]
  · simp [Completion.state, fetchBegin]
  · simp [Completion.state]
  · simp [Completion.state]
  · simp only [Completion.state, setLoading_log, emit_log, liveAfter_concat]
    rfl

/-- C2 on a page showing a tips chart, with the server answering 503. -/
theorem fetchData_failure_keeps_charts_witness :
    (fetchData demoEnv (.response 503 (some (.obj [])))
      (installChart .tips (tipsConfig (fun _ => "") (.arr [.str "Mon"]) (.arr [.num 1000])
        (.arr [.num 500])) State.init)).state.tipsChart =
    (installChart .tips (tipsConfig (fun _ => "") (.arr [.str "Mon"]) (.arr [.num 1000])
        (.arr [.num 500])) State.init).tipsChart :=
  (fetchData_failure_keeps_charts demoEnv
    (.response 503 (some (.obj [])))
    (installChart .tips (tipsConfig (fun _ => "") (.arr [.str "Mon"]) (.arr [.num 1000])
        (.arr [.num 500])) State.init) (by decide)).1

/-- C6: when the seed element is missing, its text is empty, or its text does
not parse, the seed block ends normally and leaves every state as it found it;
so on page load both chart variables stay empty, no instance exists, and the
only things done are the first request, sent right after the seed block, and
the installation of the 10-second timer. -/
theorem bootstrap_bad_seed (env : Env) (seed : Option String)
    (h : seed = none ∨ seed = some "" ∨ ∃ text, seed = some text ∧ env.parse text = none) :
    (∀ s, seedBlock env seed s = .normal s) ∧
    adminChartsBody env seed = .normal ((fetchBegin State.init).emit (.interval 10000)) ∧
    (adminChartsBody env seed).state.tipsChart = none ∧
    (adminChartsBody env seed).state.staffChart = none ∧
    liveAfter (adminChartsBody env seed).state.log = [] ∧
    (adminChartsBody env seed).state.log = [.request dataUrl, .interval 10000] ∧
    initAdminCharts env ⟨true, true, true, seed⟩ =
      some (.normal ((fetchBegin State.init).emit (.interval 10000))) := by
  have hseed : ∀ s, seedBlock env seed s = .normal s := by
    intro s
    rw [seedBlock_eq]
    rcases h with rfl | rfl | ⟨text, rfl, hp⟩
    · rfl
    · rfl
    · by_cases ht : text = ""
      · simp [ht]
      · simp [ht, hp]
  have hbody : adminChartsBody env seed =
      .normal ((fetchBegin State.init).emit (.interval 10000)) := by
    unfold adminChartsBody
    rw [hseed]
  refine ⟨hseed, hbody, ?_, ?_, ?_, ?_, ?_⟩
  · rw [hbody]; rfl
  · rw [hbody]; rfl
  · rw [hbody]; rfl
  · rw [hbody]; rfl
  · simp [initAdminCharts, hbody]

/-- C6 for a seed element holding the text `oops`, which does not parse. -/
theorem bootstrap_bad_seed_witness :
    (adminChartsBody demoEnv (some "oops")).state.log =
      [.request dataUrl, .interval 10000] :=
  (bootstrap_bad_seed demoEnv (some "oops")
    (Or.inr (Or.inr ⟨"oops", rfl, rfl⟩))).2.2.2.2.2.1

theorem buildOrUpdate_normal_charts (env : Env) (payload : Json) (s s1 : State)
    (h : buildOrUpdate env payload s = .normal s1) :
    s1.tipsChart = some ⟨s.nextId, .tips, payloadTipsConfig env payload⟩ ∧
    s1.staffChart = some ⟨s.nextId + 1, .staff, payloadStaffConfig env payload⟩ := by
  rcases buildOrUpdate_cases env payload s with
    ⟨_, h1⟩ | ⟨_, _, h1⟩ | ⟨_, _, _, h1⟩ | ⟨_, _, _, h1⟩
  · rw [h1] at h; cases h
  · rw [h1] at h; cases h
  · rw [h1] at h; cases h
  · rw [h1] at h
    cases h
    constructor
    · have h2 := installChart_chart_other .staff .tips (payloadStaffConfig env payload)
        (destroySlot .staff (installChart .tips (payloadTipsConfig env payload)
          (destroySlot .tips s))) (by decide)
      rw [destroySlot_chart_other .staff .tips _ (by decide), installChart_chart_same] at h2
      simpa [chart_tips] using h2
    · have h2 := installChart_chart_same .staff (payloadStaffConfig env payload)
        (destroySlot .staff (installChart .tips (payloadTipsConfig env payload)
          (destroySlot .tips s)))
      simpa [chart_staff] using h2

/-- C7, as stated, fails: `v = 9007199254740893` is a non-negative integer
(and a double), and the amount `fmtCents(v)` hands to `money.format` is the
double `90071992547408.9375`, which lies nearer to the amount of `v + 1` minor
units than to exactly `v/100`: a formatter that prints the nearest whole cent
of its argument shows `…408,94` where the format of exactly `v/100` is
`…408,93`. -/
theorem fmtCents_large_amount_off_by_a_cent :
    nearestDouble 9007199254740893 = 9007199254740893 ∧
    fmtCents (fun q => toString (roundHalfEven (q * 100))) (some 9007199254740893) =
      toString (9007199254740894 : ℤ) ∧
    (fun q : ℚ => toString (roundHalfEven (q * 100))) (9007199254740893 / 100) =
      toString (9007199254740893 : ℤ) ∧
    fmtCents (fun q => toString (roundHalfEven (q * 100))) (some 9007199254740893) ≠
      (fun q : ℚ => toString (roundHalfEven (q * 100))) (9007199254740893 / 100) ∧
    fdiv 9007199254740893 100 = 1441151880758543 / 16 ∧
    |fdiv 9007199254740893 100 - 9007199254740894 / 100| <
      |fdiv 9007199254740893 100 - 9007199254740893 / 100| := by
  have hr1 : roundHalfEven (1441151880758543 / 16 * 100) = 9007199254740894 :=
    roundHalfEven_eq _ _ (by rw [abs_lt]; constructor <;> norm_num)
  have hr2 : roundHalfEven (9007199254740893 / 100 * 100) = 9007199254740893 :=
    roundHalfEven_eq _ _ (by rw [abs_lt]; constructor <;> norm_num)
  refine ⟨by decide, ?_, ?_, ?_, fdiv_large_amount, ?_⟩
  · rw [fmtCents_some, fdiv_large_amount, hr1]
  · show toString (roundHalfEven (9007199254740893 / 100 * 100)) = _
    rw [hr2]
  · rw [fmtCents_some, fdiv_large_amount, hr1]
    show toString (9007199254740894 : ℤ) ≠ toString (roundHalfEven (9007199254740893 / 100 * 100))
    rw [hr2]
    decide
  · rw [fdiv_large_amount]
    have e1 : (1441151880758543 / 16 : ℚ) - 9007199254740894 / 100 = -(1 / 400) := by norm_num
    have e2 : (1441151880758543 / 16 : ℚ) - 9007199254740893 / 100 = 3 / 400 := by norm_num
    rw [e1, e2, abs_neg, abs_of_pos (by norm_num : (0 : ℚ) < 1 / 400),
      abs_of_pos (by norm_num : (0 : ℚ) < 3 / 400)]
    norm_num

/-- C7, amended: for every non-negative integer `v` of minor units,
`fmtCents(v)` is `money.format` applied to the JavaScript quotient `v / 100`, a
double; for `v` below `100 · 2^46` that double is within `1/256` of exactly
`v/100` and nearer to it than to the amount of any other number of minor
units; `fmtCents(0)` is the formatted zero amount, hence not blank when the
formatter's zero is not; the y-axis tick callback of both charts returns
`fmtCents(v)`, the staff tooltip returns `fmtCents(v)`, and the tips tooltip
returns the series label, `": "` and `fmtCents(v)`; the charts `buildOrUpdate`
installs carry these callbacks. -/
theorem fmtCents_is_money_format (money : ℚ → String) (v : ℕ) :
    fmtCents money (some (v : ℚ)) = money (fdiv (v : ℚ) 100) ∧
    (v < 100 * 2 ^ 46 →
      |fdiv (v : ℚ) 100 - (v : ℚ) / 100| ≤ 1 / 256 ∧
      ∀ c : ℤ, c ≠ (v : ℤ) →
        |fdiv (v : ℚ) 100 - (v : ℚ) / 100| < |fdiv (v : ℚ) 100 - (c : ℚ) / 100|) ∧
    fmtCents money (some 0) = money 0 ∧
    (money 0 ≠ "" → fmtCents money (some 0) ≠ "") ∧
    (∀ labels current previous : Json,
      (tipsConfig money labels current previous).yTick (some (v : ℚ)) =
        fmtCents money (some (v : ℚ)) ∧
      ∀ series : String,
        (tipsConfig money labels current previous).tooltipLabel series (some (v : ℚ)) =
          series ++ ": " ++ fmtCents money (some (v : ℚ))) ∧
    (∀ staff_labels staff_totals : Json,
      (staffConfig money staff_labels staff_totals).yTick (some (v : ℚ)) =
        fmtCents money (some (v : ℚ)) ∧
      ∀ series : String,
        (staffConfig money staff_labels staff_totals).tooltipLabel series (some (v : ℚ)) =
          fmtCents money (some (v : ℚ))) ∧
    (∀ (env : Env) (payload : Json) (s s1 : State), env.money = money →
      buildOrUpdate env payload s = .normal s1 →
      ∃ ct cs : Chart, s1.tipsChart = some ct ∧ s1.staffChart = some cs ∧
        ct.config.yTick (some (v : ℚ)) = fmtCents money (some (v : ℚ)) ∧
        cs.config.yTick (some (v : ℚ)) = fmtCents money (some (v : ℚ)) ∧
        (∀ series : String, ct.config.tooltipLabel series (some (v : ℚ)) =
          series ++ ": " ++ fmtCents money (some (v : ℚ))) ∧
        (∀ series : String, cs.config.tooltipLabel series (some (v : ℚ)) =
          fmtCents money (some (v : ℚ)))) := by
  have h0 : fmtCents money (some 0) = money 0 := by rw [fmtCents_some, fdiv_zero]
  refine ⟨fmtCents_some money v, ?_, h0, ?_, ?_, ?_, ?_⟩
  · intro hv
    have hq0 : (0 : ℚ) ≤ (v : ℚ) / 100 := by positivity
    have hq1 : (v : ℚ) / 100 < 2 ^ (46 : ℤ) := by
      have : (v : ℚ) < 100 * 2 ^ 46 := by exact_mod_cast hv
      rw [div_lt_iff₀ (by norm_num)]
      norm_num at this ⊢
      linarith
    have hb : |fdiv (v : ℚ) 100 - (v : ℚ) / 100| ≤ 1 / 256 :=
      abs_toDouble_sub_le_small _ hq0 hq1
    refine ⟨hb, ?_⟩
    intro c hc
    have hcv : (1 : ℚ) ≤ |(c : ℚ) - (v : ℚ)| := by
      have h1 : (1 : ℤ) ≤ |c - (v : ℤ)| := Int.one_le_abs (sub_ne_zero.2 hc)
      have h2 : ((1 : ℤ) : ℚ) ≤ ((|c - (v : ℤ)| : ℤ) : ℚ) := by exact_mod_cast h1
      simpa using h2
    have hd : |(v : ℚ) / 100 - (c : ℚ) / 100| = |(c : ℚ) - (v : ℚ)| / 100 := by
      rw [← sub_div, abs_div, abs_sub_comm]
      norm_num
    have htri : |(v : ℚ) / 100 - (c : ℚ) / 100| ≤
        |fdiv (v : ℚ) 100 - (v : ℚ) / 100| + |fdiv (v : ℚ) 100 - (c : ℚ) / 100| := by
      have := abs_sub_le ((v : ℚ) / 100) (fdiv (v : ℚ) 100) ((c : ℚ) / 100)
      rw [abs_sub_comm ((v : ℚ) / 100) (fdiv (v : ℚ) 100)] at this
      exact this
    rw [hd] at htri
    have : (1 : ℚ) / 100 ≤ |(c : ℚ) - (v : ℚ)| / 100 := by
      apply div_le_div_of_nonneg_right hcv (by norm_num)
    linarith
  · intro hne; rw [h0]; exact hne
  · intro labels current previous
    exact ⟨rfl, fun _ => rfl⟩
  · intro staff_labels staff_totals
    exact ⟨rfl, fun _ => rfl⟩
  · intro env payload s s1 hm hb
    obtain ⟨ht, hs⟩ := buildOrUpdate_normal_charts env payload s s1 hb
    subst hm
    exact ⟨_, _, ht, hs, rfl, rfl, fun _ => rfl, fun _ => rfl⟩

/-- C7 (amended) at the amount of 1999 minor units: the quotient handed to the
formatter is within `1/256` of `19.99`. -/
theorem fmtCents_is_money_format_witness :
    |fdiv ((1999 : ℕ) : ℚ) 100 - ((1999 : ℕ) : ℚ) / 100| ≤ 1 / 256 :=
  ((fmtCents_is_money_format (fun _ => "€") 1999).2.1 (by norm_num)).1

theorem view_eq (s : State) :
    s.view = ((s.chart .tips).map Chart.view, (s.chart .staff).map Chart.view) := rfl

theorem chart_after_tips_reject (s : State) (slot : Slot) :
    (destroySlot .tips s).chart slot =
      match slot with
      | .tips => none
      | .staff => s.chart .staff := by
  cases slot
  · exact destroySlot_chart_same .tips s
  · exact destroySlot_chart_other .tips .staff s (by decide)

theorem chart_after_staff_reject (cfg : ChartConfig) (s : State) (slot : Slot) :
    (destroySlot .staff (installChart .tips cfg (destroySlot .tips s))).chart slot =
      match slot with
      | .tips => some ⟨s.nextId, .tips, cfg⟩
      | .staff => none := by
  cases slot
  · rw [destroySlot_chart_other .staff .tips _ (by decide), installChart_chart_same]
    simp
  · exact destroySlot_chart_same .staff _

theorem chart_after_accept (cfgT cfgS : ChartConfig) (s : State) (slot : Slot) :
    (installChart .staff cfgS
      (destroySlot .staff (installChart .tips cfgT (destroySlot .tips s)))).chart slot =
      match slot with
      | .tips => some ⟨s.nextId, .tips, cfgT⟩
      | .staff => some ⟨s.nextId + 1, .staff, cfgS⟩ := by
  cases slot
  · rw [installChart_chart_other .staff .tips _ _ (by decide)]
    exact chart_after_staff_reject cfgT s .tips
  · rw [installChart_chart_same]
    simp

/-- Rebuilding twice from one payload shows what rebuilding once shows, and
ends the same way. -/
theorem buildOrUpdate_twice (env : Env) (payload : Json) (s : State) :
    (buildOrUpdate env payload (buildOrUpdate env payload s).state).state.view =
      (buildOrUpdate env payload s).state.view ∧
    (buildOrUpdate env payload (buildOrUpdate env payload s).state).isThrown =
      (buildOrUpdate env payload s).isThrown := by
  rcases buildOrUpdate_cases env payload s with
    ⟨hn, h1⟩ | ⟨hn, ht, h1⟩ | ⟨hn, ht, hs, h1⟩ | ⟨hn, ht, hs, h1⟩
  · rw [h1]
    simp only [Completion.state]
    rw [h1]
    exact ⟨rfl, rfl⟩
  · rw [h1]
    simp only [Completion.state]
    rcases buildOrUpdate_cases env payload
        (failedChart env .tips (payloadTipsConfig env payload) (destroySlot .tips s)) with
      ⟨hn2, _⟩ | ⟨_, _, h2⟩ | ⟨_, ht2, _⟩ | ⟨_, ht2, _⟩
    · exact absurd hn2 hn
    · rw [h2]
      refine ⟨?_, rfl⟩
      simp only [Completion.state, view_eq, failedChart_chart, chart_after_tips_reject]
    · rw [ht] at ht2; cases ht2
    · rw [ht] at ht2; cases ht2
  · rw [h1]
    simp only [Completion.state]
    rcases buildOrUpdate_cases env payload
        (failedChart env .staff (payloadStaffConfig env payload) (destroySlot .staff
          (installChart .tips (payloadTipsConfig env payload) (destroySlot .tips s)))) with
      ⟨hn2, _⟩ | ⟨_, ht2, _⟩ | ⟨_, _, _, h2⟩ | ⟨_, _, hs2, _⟩
    · exact absurd hn2 hn
    · rw [ht] at ht2; cases ht2
    · rw [h2]
      refine ⟨?_, rfl⟩
      simp only [Completion.state, view_eq, failedChart_chart, chart_after_staff_reject]
      rfl
    · rw [hs] at hs2; cases hs2
  · rw [h1]
    simp only [Completion.state]
    rcases buildOrUpdate_cases env payload (installChart .staff (payloadStaffConfig env payload)
        (destroySlot .staff
          (installChart .tips (payloadTipsConfig env payload) (destroySlot .tips s)))) with
      ⟨hn2, _⟩ | ⟨_, ht2, _⟩ | ⟨_, _, hs2, _⟩ | ⟨_, _, _, h2⟩
    · exact absurd hn2 hn
    · rw [ht] at ht2; cases ht2
    · rw [hs] at hs2; cases hs2
    · rw [h2]
      refine ⟨?_, rfl⟩
      simp only [Completion.state, view_eq, chart_after_accept]
      rfl

theorem payloadTipsConfig_toJson (env : Env) (P : ChartPayload) :
    payloadTipsConfig env P.toJson =
      tipsConfig env.money (.arr (P.daily_labels.map Json.str))
        (.arr (P.daily_current.map Json.num)) (.arr (P.daily_previous.map Json.num)) := rfl

theorem payloadStaffConfig_toJson (env : Env) (P : ChartPayload) :
    payloadStaffConfig env P.toJson =
      staffConfig env.money (.arr (P.staff_labels.map Json.str))
        (.arr (P.staff_totals.map Json.num)) := rfl

theorem view_tipsConfig_toJson (env : Env) (P : ChartPayload) (id : Nat) (slot : Slot) :
    Chart.view ⟨id, slot, payloadTipsConfig env P.toJson⟩ = tipsViewOf env.money P := by
  simp [payloadTipsConfig_toJson, Chart.view, tipsConfig, seriesView, tipsViewOf, pointY,
    tipsTooltipLabel, fmtCents_some, List.map_map, Function.comp_def]

theorem view_staffConfig_toJson (env : Env) (P : ChartPayload) (id : Nat) (slot : Slot) :
    Chart.view ⟨id, slot, payloadStaffConfig env P.toJson⟩ = staffViewOf env.money P := by
  simp [payloadStaffConfig_toJson, Chart.view, staffConfig, seriesView, staffViewOf, pointY,
    staffTooltipLabel, fmtCents_some, List.map_map, Function.comp_def]

theorem toJson_ne_null (P : ChartPayload) : P.toJson ≠ Json.null := by
  intro h; cases h

/-- C4: rebuilding the charts twice in a row from one payload shows exactly
what rebuilding once shows (labels, series values and tooltip strings of both
charts) and ends the same way; and when the chart library accepts the
configurations, what is shown after one or two rebuilds is determined by the
payload alone, whatever the slots held before. -/
theorem buildOrUpdate_idempotent (env : Env) (P : ChartPayload) (s : State) :
    (buildOrUpdate env P.toJson (buildOrUpdate env P.toJson s).state).state.view =
      (buildOrUpdate env P.toJson s).state.view ∧
    (buildOrUpdate env P.toJson (buildOrUpdate env P.toJson s).state).isThrown =
      (buildOrUpdate env P.toJson s).isThrown ∧
    (env.accepts .tips (payloadTipsConfig env P.toJson) = true →
      env.accepts .staff (payloadStaffConfig env P.toJson) = true →
      (buildOrUpdate env P.toJson s).state.view =
        (some (tipsViewOf env.money P), some (staffViewOf env.money P)) ∧
      (buildOrUpdate env P.toJson (buildOrUpdate env P.toJson s).state).state.view =
        (some (tipsViewOf env.money P), some (staffViewOf env.money P))) := by
  obtain ⟨hv, ht⟩ := buildOrUpdate_twice env P.toJson s
  refine ⟨hv, ht, ?_⟩
  intro hat has
  have once : (buildOrUpdate env P.toJson s).state.view =
      (some (tipsViewOf env.money P), some (staffViewOf env.money P)) := by
    rcases buildOrUpdate_cases env P.toJson s with
      ⟨hn, _⟩ | ⟨_, ht2, _⟩ | ⟨_, _, hs2, _⟩ | ⟨_, _, _, h2⟩
    · exact absurd hn (toJson_ne_null P)
    · rw [hat] at ht2; cases ht2
    · rw [has] at hs2; cases hs2
    · rw [h2]
      simp only [Completion.state, view_eq, chart_after_accept, Option.map_some',
        view_tipsConfig_toJson, view_staffConfig_toJson]
  exact ⟨once, hv.trans once⟩

/-- C4 at the end-to-end payload, rebuilt over the charts it was rendered to. -/
theorem buildOrUpdate_idempotent_witness :
    (buildOrUpdate demoEnv demoPayload.toJson
      (buildOrUpdate demoEnv demoPayload.toJson demoState).state).state.view =
      (some (tipsViewOf demoEnv.money demoPayload),
        some (staffViewOf demoEnv.money demoPayload)) :=
  ((buildOrUpdate_idempotent demoEnv demoPayload demoState).2.2 rfl rfl).2

/-- The state a successful request leaves when the body is not `null` and the
chart library accepts both configurations. -/
theorem fetchData_success_eq (env : Env) (status : Nat) (json : Json) (s : State)
    (hs : statusOk status = true) (hn : json ≠ Json.null)
    (hat : env.accepts .tips (payloadTipsConfig env json) = true)
    (has : env.accepts .staff (payloadStaffConfig env json) = true) :
    fetchData env (.response status (some json)) s =
      .normal (setLoading .staff false (setLoading .tips false
        (installChart .staff (payloadStaffConfig env json) (destroySlot .staff
          (installChart .tips (payloadTipsConfig env json)
            (destroySlot .tips (fetchBegin s))))))) := by
  unfold fetchData
  rw [fetchComplete_eq, fetchTry_body env status json _ hs]
  rcases buildOrUpdate_cases env json (fetchBegin s) with
    ⟨hn2, _⟩ | ⟨_, ht2, _⟩ | ⟨_, _, hs2, _⟩ | ⟨_, _, _, h2⟩
  · exact absurd hn2 hn
  · rw [hat] at ht2; cases ht2
  · rw [has] at hs2; cases hs2
  · rw [h2]

theorem fetchData_success_charts (env : Env) (status : Nat) (json : Json) (s : State)
    (hs : statusOk status = true) (hn : json ≠ Json.null)
    (hat : env.accepts .tips (payloadTipsConfig env json) = true)
    (has : env.accepts .staff (payloadStaffConfig env json) = true) :
    (fetchData env (.response status (some json)) s).state.tipsChart =
      some ⟨s.nextId, .tips, payloadTipsConfig env json⟩ ∧
    (fetchData env (.response status (some json)) s).state.staffChart =
      some ⟨s.nextId + 1, .staff, payloadStaffConfig env json⟩ := by
  rw [fetchData_success_eq env status json s hs hn hat has]
  constructor
  · have h := chart_after_accept (payloadTipsConfig env json) (payloadStaffConfig env json)
      (fetchBegin s) .tips
    simpa [Completion.state, chart_tips, fetchBegin] using h
  · have h := chart_after_accept (payloadTipsConfig env json) (payloadStaffConfig env json)
      (fetchBegin s) .staff
    simpa [Completion.state, chart_staff, fetchBegin] using h

/-- C5: after a successful refresh with a payload of the documented shape, its
arrays positionally aligned (the chart library accepting the configurations,
and no card holding more than one overlay before), both overlays are gone, the
tips chart has `daily_labels.length` labels and each of its two series has
length `daily_labels.length`, and the staff chart has `staff_labels.length`
labels and a series of length `staff_labels.length`. -/
theorem fetchData_success_series_lengths (env : Env) (status : Nat) (P : ChartPayload)
    (s : State) (ht : s.tipsOverlays ≤ 1) (hst : s.staffOverlays ≤ 1)
    (hs : statusOk status = true) (hP : P.aligned)
    (hat : env.accepts .tips (payloadTipsConfig env P.toJson) = true)
    (has : env.accepts .staff (payloadStaffConfig env P.toJson) = true) :
    (fetchData env (.response status (some P.toJson)) s).isThrown = false ∧
    (fetchData env (.response status (some P.toJson)) s).state.tipsOverlays = 0 ∧
    (fetchData env (.response status (some P.toJson)) s).state.staffOverlays = 0 ∧
    (fetchData env (.response status (some P.toJson)) s).state.tipsChart.map
      (fun c => c.config.labels.length) = some P.daily_labels.length ∧
    (fetchData env (.response status (some P.toJson)) s).state.tipsChart.map
      Chart.seriesLengths = some [P.daily_labels.length, P.daily_labels.length] ∧
    (fetchData env (.response status (some P.toJson)) s).state.staffChart.map
      (fun c => c.config.labels.length) = some P.staff_labels.length ∧
    (fetchData env (.response status (some P.toJson)) s).state.staffChart.map
      Chart.seriesLengths = some [P.staff_labels.length] := by
  obtain ⟨hc1, hc2⟩ := fetchData_success_charts env status P.toJson s hs (toJson_ne_null P) hat has
  obtain ⟨hb1, hb2⟩ := fetchBegin_overlays s
  have hov := fetchComplete_overlays env (.response status (some P.toJson)) (fetchBegin s)
  have e1 : (fetchBegin s).tipsOverlays = 1 := by rw [hb1]; split_ifs <;> omega
  have e2 : (fetchBegin s).staffOverlays = 1 := by rw [hb2]; split_ifs <;> omega
  obtain ⟨hP1, hP2, hP3⟩ := hP
  refine ⟨?_, ?_, ?_, ?_, ?_, ?_, ?_⟩
  · unfold fetchData; rw [fetchComplete_eq]; rfl
  · unfold fetchData; omega
  · unfold fetchData; omega
  · rw [hc1]
    simp [payloadTipsConfig_toJson, tipsConfig, Json.length]
  · rw [hc1]
    simp [Chart.seriesLengths, payloadTipsConfig_toJson, tipsConfig, Json.length, hP1, hP2]
  · rw [hc2]
    simp [payloadStaffConfig_toJson, staffConfig, Json.length]
  · rw [hc2]
    simp [Chart.seriesLengths, payloadStaffConfig_toJson, staffConfig, Json.length, hP3]

/-- C5 at the end-to-end payload on a page showing both overlays: two points
in each tips series for two day labels, one bar for one staff label. -/
theorem fetchData_success_series_lengths_witness :
    (fetchData demoEnv (.response 200 (some demoPayload.toJson)) loadingState).state.tipsChart.map
      Chart.seriesLengths = some [2, 2] ∧
    (fetchData demoEnv (.response 200 (some demoPayload.toJson)) loadingState).state.staffChart.map
      Chart.seriesLengths = some [1] ∧
    (fetchData demoEnv (.response 200 (some demoPayload.toJson)) loadingState).state.tipsOverlays
      = 0 :=
  ⟨(fetchData_success_series_lengths demoEnv 200 demoPayload loadingState (Nat.le_refl 1)
      (Nat.le_refl 1) rfl ⟨rfl, rfl, rfl⟩ rfl rfl).2.2.2.2.1,
    (fetchData_success_series_lengths demoEnv 200 demoPayload loadingState (Nat.le_refl 1)
      (Nat.le_refl 1) rfl ⟨rfl, rfl, rfl⟩ rfl rfl).2.2.2.2.2.2,
    (fetchData_success_series_lengths demoEnv 200 demoPayload loadingState (Nat.le_refl 1)
      (Nat.le_refl 1) rfl ⟨rfl, rfl, rfl⟩ rfl rfl).2.1⟩

theorem destroySlot_log (slot : Slot) (s : State) :
    (destroySlot slot s).log =
      s.log ++ (s.chart slot).toList.map (fun c => Event.destroyed c.id) := by
  unfold destroySlot
  cases h : s.chart slot <;> simp

/-- C3, as stated, fails: on the page rendered from the end-to-end payload, a
200 response with the body `{}` replaces both charts by empty ones (new
instances 2 and 3 in place of 0 and 1, no labels where there were two). -/
theorem empty_object_replaces_charts :
    (fetchData demoEnv (.response 200 (some (.obj []))) demoState).state.view ≠ demoState.view ∧
    demoState.tipsChart.map (fun c => c.config.labels.length) = some 2 ∧
    (fetchData demoEnv (.response 200 (some (.obj []))) demoState).state.tipsChart.map
      (fun c => c.config.labels.length) = some 0 ∧
    (liveAfter demoState.log).map Chart.id = [0, 1] ∧
    (liveAfter (fetchData demoEnv (.response 200 (some (.obj []))) demoState).state.log).map
      Chart.id = [2, 3] := by
  refine ⟨?_, rfl, rfl, rfl, rfl⟩
  intro h
  have e1 : (fetchData demoEnv (.response 200 (some (.obj []))) demoState).state.view.1.map
      (fun v => v.labels.length) = some 0 := rfl
  have e2 : demoState.view.1.map (fun v => v.labels.length) = some 2 := rfl
  rw [h, e2] at e1
  cases e1

/-- C3, amended: a 2xx response whose body is a JSON object is not handled like
a network error. Each field the object lacks is read as the empty list and,
the chart library accepting the configurations, both slots receive new
instances built from the body, the earlier instances are destroyed and nothing
is written to the console. The earlier charts are retained, and the error
logged, when the body is `null`. -/
theorem fetchData_object_body_rebuilds (env : Env) (status : Nat)
    (kvs : List (String × Json)) (s : State) (hs : statusOk status = true)
    (hat : env.accepts .tips (payloadTipsConfig env (.obj kvs)) = true)
    (has : env.accepts .staff (payloadStaffConfig env (.obj kvs)) = true) :
    (fetchData env (.response status (some (.obj kvs))) s).state.tipsChart =
      some ⟨s.nextId, .tips, tipsConfig env.money (orEmpty (kvs.lookup "daily_labels"))
        (orEmpty (kvs.lookup "daily_current")) (orEmpty (kvs.lookup "daily_previous"))⟩ ∧
    (fetchData env (.response status (some (.obj kvs))) s).state.staffChart =
      some ⟨s.nextId + 1, .staff, staffConfig env.money (orEmpty (kvs.lookup "staff_labels"))
        (orEmpty (kvs.lookup "staff_totals"))⟩ ∧
    (∀ key, kvs.lookup key = none → orEmpty (kvs.lookup key) = .arr []) ∧
    (fetchData env (.response status (some (.obj kvs))) s).state.log =
      s.log ++ [.request dataUrl] ++
        s.tipsChart.toList.map (fun c => Event.destroyed c.id) ++
        [.constructed ⟨s.nextId, .tips, payloadTipsConfig env (.obj kvs)⟩] ++
        s.staffChart.toList.map (fun c => Event.destroyed c.id) ++
        [.constructed ⟨s.nextId + 1, .staff, payloadStaffConfig env (.obj kvs)⟩] ∧
    (fetchData env (.response status (some .null)) s).state.tipsChart = s.tipsChart ∧
    (fetchData env (.response status (some .null)) s).state.staffChart = s.staffChart ∧
    (fetchData env (.response status (some .null)) s).state.log =
      s.log ++ [.request dataUrl, .consoleError "Chart data error"] := by
  have hn : Json.obj kvs ≠ Json.null := by intro h; cases h
  obtain ⟨hc1, hc2⟩ := fetchData_success_charts env status (.obj kvs) s hs hn hat has
  have hnull : fetchData env (.response status (some .null)) s =
      .normal (setLoading .staff false (setLoading .tips false
        ((fetchBegin s).emit (.consoleError "Chart data error")))) := by
    unfold fetchData
    rw [fetchComplete_eq, fetchTry_body env status .null _ hs]
    rfl
  refine ⟨hc1, hc2, ?_, ?_, ?_, ?_, ?_⟩
  · intro key hk
    rw [hk]; rfl
  · rw [fetchData_success_eq env status (.obj kvs) s hs hn hat has]
    have hst : (installChart .tips (payloadTipsConfig env (.obj kvs))
        (destroySlot .tips (fetchBegin s))).chart .staff = s.staffChart := by
      rw [installChart_chart_other .tips .staff _ _ (by decide),
        destroySlot_chart_other .tips .staff _ (by decide)]
      simp [fetchBegin, chart_staff]
    have htp : (fetchBegin s).chart .tips = s.tipsChart := by
      simp [fetchBegin, chart_tips]
    have hlog : (fetchBegin s).log = s.log ++ [.request dataUrl] := by simp [fetchBegin]
    have hid : (fetchBegin s).nextId = s.nextId := by simp [fetchBegin]
    simp only [Completion.state, setLoading_log, installChart_log, destroySlot_log, hst, htp,
      installChart_nextId, destroySlot_nextId, hlog, hid]
  · rw [hnull]; simp [Completion.state, fetchBegin]
  · rw [hnull]; simp [Completion.state, fetchBegin]
  · rw [hnull]; simp [Completion.state, fetchBegin]

/-- C3 (amended) at the body `{}` on the page rendered from the end-to-end
payload: the tips slot holds a new instance without labels or data. -/
theorem fetchData_object_body_rebuilds_witness :
    (fetchData demoEnv (.response 200 (some (.obj []))) demoState).state.tipsChart =
      some ⟨demoState.nextId, .tips,
        tipsConfig demoEnv.money (.arr []) (.arr []) (.arr [])⟩ :=
  (fetchData_object_body_rebuilds demoEnv 200 [] demoState rfl rfl rfl).1

/-! ### One live instance per canvas -/

theorem traceOK_concat (log : List Event) (e : Event) (h : TraceOK log)
    (he : AtMostOneLive (liveAfter (log ++ [e]))) : TraceOK (log ++ [e]) := by
  intro pre hpre
  rcases List.prefix_concat_iff.1 hpre with rfl | hp
  · exact he
  · exact h pre hp

theorem inv_congr (s s1 : State) (hl : s1.log = s.log) (hc : ∀ slot, s1.chart slot = s.chart slot)
    (hn : s1.nextId = s.nextId) (h : Inv s) : Inv s1 := by
  refine ⟨?_, ?_, ?_, ?_, ?_⟩
  · intro slot c; rw [hl, hc]; exact h.slots slot c
  · rw [hl]; exact h.atMost
  · rw [hl, hn]; exact h.fresh
  · rw [hl]; exact h.ids
  · rw [hl]; exact h.trace

theorem inv_setLoading (slot : Slot) (b : Bool) (s : State) (h : Inv s) :
    Inv (setLoading slot b s) :=
  inv_congr s _ (by simp) (by simp) (by simp) h

theorem inv_emit_other (s : State) (e : Event)
    (he : ∀ live, applyEvent live e = live) (h : Inv s) : Inv (s.emit e) := by
  have hl : liveAfter (s.emit e).log = liveAfter s.log := by
    rw [emit_log, liveAfter_concat, he]
  refine ⟨?_, ?_, ?_, ?_, ?_⟩
  · intro slot c; rw [hl, emit_chart]; exact h.slots slot c
  · rw [hl]; exact h.atMost
  · rw [hl]; exact h.fresh
  · rw [hl]; exact h.ids
  · rw [emit_log]
    refine traceOK_concat _ _ h.trace ?_
    rw [← emit_log, hl]
    exact h.atMost

theorem liveOn_filter (live : List Chart) (p : Chart → Bool) (slot : Slot) :
    liveOn (live.filter p) slot = (liveOn live slot).filter p := by
  simp only [liveOn, List.filter_filter]
  congr 1
  funext c
  exact Bool.and_comm _ _

theorem mem_liveOn (live : List Chart) (slot : Slot) (c : Chart) :
    c ∈ liveOn live slot ↔ c ∈ live ∧ c.canvas = slot := by
  simp [liveOn]

theorem slot_chart_live (s : State) (h : Inv s) (slot : Slot) (c : Chart)
    (hc : s.chart slot = some c) : c ∈ liveAfter s.log ∧ c.canvas = slot := by
  rw [← mem_liveOn, h.slots slot c hc]; simp

theorem liveAfter_destroySlot (slot : Slot) (s : State) (c : Chart)
    (hc : s.chart slot = some c) :
    liveAfter (destroySlot slot s).log = (liveAfter s.log).filter (fun x => x.id != c.id) := by
  have hd : destroySlot slot s = (s.emit (.destroyed c.id)).setChart slot none := by
    simp [destroySlot, hc]
  rw [hd, setChart_log, emit_log, liveAfter_concat]; rfl

/-- After the statement that clears a slot the slot's canvas is free, unless it
carries an instance that the variable did not hold. -/
theorem liveOn_destroySlot (slot slot1 : Slot) (s : State) (h : Inv s) (c : Chart)
    (hc : s.chart slot = some c) :
    liveOn (liveAfter (destroySlot slot s).log) slot1 =
      if slot1 = slot then [] else liveOn (liveAfter s.log) slot1 := by
  have hcmem := slot_chart_live s h slot c hc
  rw [liveAfter_destroySlot slot s c hc, liveOn_filter]
  by_cases hs : slot1 = slot
  · subst hs
    rw [h.slots slot1 c hc, if_pos rfl]
    simp
  · rw [if_neg hs, List.filter_eq_self]
    intro x hx
    have hx2 : x ∈ liveAfter s.log ∧ x.canvas = slot1 := (mem_liveOn _ _ _).1 hx
    have hne : x.id ≠ c.id := by
      intro hid
      have := h.ids x hx2.1 c hcmem.1 hid
      rw [hx2.2, hcmem.2] at this
      exact hs this
    simpa using hne

theorem inv_destroySlot (slot : Slot) (s : State) (h : Inv s) : Inv (destroySlot slot s) := by
  cases hc : s.chart slot with
  | none =>
    have : destroySlot slot s = s := by simp [destroySlot, hc]
    rw [this]; exact h
  | some c =>
    have hlive := liveAfter_destroySlot slot s c hc
    have hL := fun slot1 => liveOn_destroySlot slot slot1 s h c hc
    have hatMost : AtMostOneLive (liveAfter (destroySlot slot s).log) := by
      intro slot1
      rw [hL slot1]
      split_ifs
      · simp
      · exact h.atMost slot1
    refine ⟨?_, hatMost, ?_, ?_, ?_⟩
    · intro slot1 d hd
      by_cases hs : slot1 = slot
      · subst hs
        rw [destroySlot_chart_same] at hd
        cases hd
      · rw [destroySlot_chart_other slot slot1 s hs] at hd
        rw [hL slot1, if_neg hs]
        exact h.slots slot1 d hd
    · intro x hx
      rw [destroySlot_nextId]
      rw [hlive] at hx
      exact h.fresh x (List.mem_filter.1 hx).1
    · intro x hx y hy
      rw [hlive] at hx hy
      exact h.ids x (List.mem_filter.1 hx).1 y (List.mem_filter.1 hy).1
    · have hd : destroySlot slot s = (s.emit (.destroyed c.id)).setChart slot none := by
        simp [destroySlot, hc]
      have hlog : (destroySlot slot s).log = s.log ++ [.destroyed c.id] := by
        rw [hd, setChart_log, emit_log]
      rw [hlog] at hatMost ⊢
      exact traceOK_concat _ _ h.trace hatMost

theorem liveAfter_registerChart (slot : Slot) (cfg : ChartConfig) (s : State) :
    liveAfter (registerChart slot cfg s).log = liveAfter s.log ++ [⟨s.nextId, slot, cfg⟩] := by
  rw [registerChart_log, liveAfter_concat]; rfl

theorem liveOn_registerChart (slot slot1 : Slot) (cfg : ChartConfig) (s : State) :
    liveOn (liveAfter (registerChart slot cfg s).log) slot1 =
      if slot1 = slot then liveOn (liveAfter s.log) slot ++ [⟨s.nextId, slot, cfg⟩]
      else liveOn (liveAfter s.log) slot1 := by
  rw [liveAfter_registerChart]
  by_cases hs : slot1 = slot
  · subst hs
    simp [liveOn, List.filter_append]
  · have hs2 : ¬ slot = slot1 := fun e => hs e.symm
    simp [liveOn, List.filter_append, hs, hs2]

/-- A constructor call on a free canvas keeps the invariant, whether the new
instance ends up in the variable or is left behind by a throw. -/
theorem inv_after_register (slot : Slot) (cfg : ChartConfig) (s s1 : State) (h : Inv s)
    (hfree : liveOn (liveAfter s.log) slot = [])
    (hlog : s1.log = (registerChart slot cfg s).log) (hid : s1.nextId = s.nextId + 1)
    (hother : ∀ slot1, slot1 ≠ slot → s1.chart slot1 = s.chart slot1)
    (hsame : ∀ d, s1.chart slot = some d → d = ⟨s.nextId, slot, cfg⟩) : Inv s1 := by
  have hlive : liveAfter s1.log = liveAfter s.log ++ [⟨s.nextId, slot, cfg⟩] := by
    rw [hlog, liveAfter_registerChart]
  have hL : ∀ slot1, liveOn (liveAfter s1.log) slot1 =
      if slot1 = slot then [⟨s.nextId, slot, cfg⟩] else liveOn (liveAfter s.log) slot1 := by
    intro slot1
    rw [hlog, liveOn_registerChart, hfree]
    simp
  have hatMost : AtMostOneLive (liveAfter s1.log) := by
    intro slot1
    rw [hL slot1]
    split_ifs
    · simp
    · exact h.atMost slot1
  refine ⟨?_, hatMost, ?_, ?_, ?_⟩
  · intro slot1 d hd
    rw [hL slot1]
    by_cases hs : slot1 = slot
    · subst hs
      rw [if_pos rfl, hsame d hd]
    · rw [if_neg hs]
      rw [hother slot1 hs] at hd
      exact h.slots slot1 d hd
  · intro x hx
    rw [hid]
    rw [hlive, List.mem_append, List.mem_singleton] at hx
    rcases hx with hx | rfl
    · exact Nat.lt_succ_of_lt (h.fresh x hx)
    · exact Nat.lt_succ_self _
  · intro x hx y hy hxy
    rw [hlive, List.mem_append, List.mem_singleton] at hx hy
    rcases hx with hx | rfl <;> rcases hy with hy | rfl
    · exact h.ids x hx y hy hxy
    · have := h.fresh x hx
      simp only at hxy
      omega
    · have := h.fresh y hy
      simp only at hxy
      omega
    · rfl
  · rw [hlog, registerChart_log] at hatMost ⊢
    exact traceOK_concat _ _ h.trace hatMost

theorem free_of_not_inUse (s : State) (slot : Slot) (h : canvasInUse s slot ≠ true) :
    liveOn (liveAfter s.log) slot = [] := by
  unfold canvasInUse at h
  cases hl : liveOn (liveAfter s.log) slot with
  | nil => rfl
  | cons x rest => rw [hl] at h; simp at h

theorem inv_newChart (env : Env) (slot : Slot) (cfg : ChartConfig) (s : State) (h : Inv s)
    (hn : s.chart slot = none) (law : LawfulAt env slot cfg s) :
    Inv (newChart env slot cfg s).state := by
  unfold newChart
  cases ha : env.accepts slot cfg
  · simp only [Bool.false_eq_true, if_false, Completion.state]
    unfold failedChart
    cases hr : env.registers slot cfg
    · simpa using h
    · simp only [if_true]
      have hfree : liveOn (liveAfter s.log) slot = [] := by
        apply free_of_not_inUse
        intro hu
        have := (law hu).2
        rw [hr] at this
        cases this
      refine inv_after_register slot cfg s _ h hfree rfl rfl (fun slot1 _ => by simp) ?_
      intro d hd
      rw [registerChart_chart, hn] at hd
      cases hd
  · simp only [if_true, Completion.state]
    have hfree : liveOn (liveAfter s.log) slot = [] := by
      apply free_of_not_inUse
      intro hu
      have := (law hu).1
      rw [ha] at this
      cases this
    refine inv_after_register slot cfg s _ h hfree (by simp) (by simp)
      (fun slot1 hs => installChart_chart_other slot slot1 cfg s hs) ?_
    intro d hd
    rw [installChart_chart_same] at hd
    exact (Option.some.inj hd).symm

theorem inv_buildOrUpdate (env : Env) (payload : Json) (s : State) (h : Inv s)
    (law : LawfulRebuild env payload s) : Inv (buildOrUpdate env payload s).state := by
  have h1 := inv_destroySlot .tips s h
  have h2 := inv_newChart env .tips (payloadTipsConfig env payload) _ h1
    (destroySlot_chart_same .tips s) law.1
  rcases buildOrUpdate_cases env payload s with
    ⟨_, e⟩ | ⟨_, ht, e⟩ | ⟨_, ht, hs, e⟩ | ⟨_, ht, hs, e⟩
  · rw [e]; exact h
  · rw [e]
    simpa [newChart, ht, Completion.state] using h2
  · have h2a : Inv (installChart .tips (payloadTipsConfig env payload) (destroySlot .tips s)) := by
      simpa [newChart, ht, Completion.state] using h2
    have h3 := inv_destroySlot .staff _ h2a
    have h4 := inv_newChart env .staff (payloadStaffConfig env payload) _ h3
      (destroySlot_chart_same .staff _) law.2
    rw [e]
    simpa [newChart, hs, Completion.state] using h4
  · have h2a : Inv (installChart .tips (payloadTipsConfig env payload) (destroySlot .tips s)) := by
      simpa [newChart, ht, Completion.state] using h2
    have h3 := inv_destroySlot .staff _ h2a
    have h4 := inv_newChart env .staff (payloadStaffConfig env payload) _ h3
      (destroySlot_chart_same .staff _) law.2
    rw [e]
    simpa [newChart, hs, Completion.state] using h4

theorem inv_seedBlock (env : Env) (seed : Option String) (s : State) (h : Inv s)
    (law : Lawful env s) : Inv (seedBlock env seed s).state := by
  rw [seedBlock_eq]
  cases seed with
  | none => exact h
  | some text =>
    by_cases ht : text = ""
    · simpa [ht, Completion.state] using h
    · cases hp : env.parse text with
      | none => simpa [ht, hp, Completion.state] using h
      | some initial =>
        simp only [ht, hp, if_false, Completion.state]
        exact inv_buildOrUpdate env initial s h (law initial)

theorem inv_fetchBegin (s : State) (h : Inv s) : Inv (fetchBegin s) :=
  inv_emit_other _ _ (fun _ => rfl) (inv_setLoading _ _ _ (inv_setLoading _ _ _ h))

theorem inv_fetchComplete (env : Env) (o : FetchOutcome) (s : State) (h : Inv s)
    (law : Lawful env s) : Inv (fetchComplete env o s).state := by
  have ht : Inv (fetchTry env o s).state := by
    cases o with
    | rejected => exact h
    | response status body =>
      cases hs : statusOk status
      · rw [fetchTry_bad_status env status body s hs]; exact h
      · cases body with
        | none => rw [fetchTry_no_body]; exact h
        | some json =>
          rw [fetchTry_body env status json s hs]
          exact inv_buildOrUpdate env json s h (law json)
  rw [fetchComplete_eq]
  simp only [Completion.state]
  apply inv_setLoading
  apply inv_setLoading
  cases hc : fetchTry env o s with
  | normal s1 => rw [hc] at ht; exact ht
  | thrown s1 =>
    rw [hc] at ht
    exact inv_emit_other _ _ (fun _ => rfl) ht

theorem inv_init : Inv State.init := by
  refine ⟨?_, ?_, ?_, ?_, ?_⟩
  · intro slot c hc; cases slot <;> cases hc
  · intro slot; simp [State.init, liveAfter, liveOn]
  · intro c hc; cases hc
  · intro x hx; cases hx
  · intro pre hp
    have : pre = [] := List.prefix_nil.1 hp
    subst this
    intro slot
    simp [liveAfter, liveOn]

theorem reachable_inv (s : State) (h : Reachable s) : Inv s := by
  induction h with
  | load => exact inv_init
  | bootstrap env seed _ law ih => exact inv_seedBlock env seed _ ih law
  | begin _ ih => exact inv_fetchBegin _ ih
  | complete env o _ law ih => exact inv_fetchComplete env o _ ih law
  | schedule ms _ ih => exact inv_emit_other _ _ (fun _ => rfl) ih

theorem onlyFresh_refl (s : State) : OnlyFreshAdded s s :=
  ⟨fun _ hc => Or.inl hc, Nat.le_refl _⟩

theorem onlyFresh_trans (s s1 s2 : State) (h1 : OnlyFreshAdded s s1)
    (h2 : OnlyFreshAdded s1 s2) : OnlyFreshAdded s s2 := by
  refine ⟨?_, Nat.le_trans h1.2 h2.2⟩
  intro c hc
  rcases h2.1 c hc with hc1 | hid
  · exact h1.1 c hc1
  · exact Or.inr (Nat.le_trans h1.2 hid)

theorem onlyFresh_destroySlot (slot : Slot) (s : State) :
    OnlyFreshAdded s (destroySlot slot s) := by
  cases hc : s.chart slot with
  | none =>
    have : destroySlot slot s = s := by simp [destroySlot, hc]
    rw [this]; exact onlyFresh_refl s
  | some c =>
    refine ⟨?_, by simp⟩
    intro x hx
    rw [liveAfter_destroySlot slot s c hc] at hx
    exact Or.inl (List.mem_filter.1 hx).1

theorem onlyFresh_registerChart (slot : Slot) (cfg : ChartConfig) (s : State) :
    OnlyFreshAdded s (registerChart slot cfg s) := by
  refine ⟨?_, by simp⟩
  intro x hx
  rw [liveAfter_registerChart, List.mem_append, List.mem_singleton] at hx
  rcases hx with hx | rfl
  · exact Or.inl hx
  · exact Or.inr (Nat.le_refl _)

theorem onlyFresh_installChart (slot : Slot) (cfg : ChartConfig) (s : State) :
    OnlyFreshAdded s (installChart slot cfg s) := by
  have h := onlyFresh_registerChart slot cfg s
  refine ⟨?_, by simp⟩
  intro x hx
  rw [installChart_log, ← registerChart_log] at hx
  exact h.1 x hx

theorem onlyFresh_failedChart (env : Env) (slot : Slot) (cfg : ChartConfig) (s : State) :
    OnlyFreshAdded s (failedChart env slot cfg s) := by
  unfold failedChart
  split
  · exact onlyFresh_registerChart slot cfg s
  · exact onlyFresh_refl s

theorem old_not_live_after_destroy (slot : Slot) (s : State) (c : Chart)
    (hc : s.chart slot = some c) : c ∉ liveAfter (destroySlot slot s).log := by
  rw [liveAfter_destroySlot slot s c hc]
  intro hmem
  have := (List.mem_filter.1 hmem).2
  simp at this

theorem not_live_later (s1 s2 : State) (c : Chart) (hc : c ∉ liveAfter s1.log)
    (hid : c.id < s1.nextId) (h : OnlyFreshAdded s1 s2) : c ∉ liveAfter s2.log := by
  intro hmem
  rcases h.1 c hmem with h1 | h1
  · exact hc h1
  · omega

/-- What one rebuild does to a state satisfying the invariant. -/
theorem buildOrUpdate_replaces (env : Env) (payload : Json) (s : State) (h : Inv s)
    (hn : payload ≠ Json.null) :
    (∀ c, s.tipsChart = some c → c ∉ liveAfter (buildOrUpdate env payload s).state.log) ∧
    (∀ c1, (buildOrUpdate env payload s).state.tipsChart = some c1 → s.nextId ≤ c1.id) ∧
    (env.accepts .tips (payloadTipsConfig env payload) = true →
      (∀ c, s.staffChart = some c → c ∉ liveAfter (buildOrUpdate env payload s).state.log) ∧
      (∀ c1, (buildOrUpdate env payload s).state.staffChart = some c1 → s.nextId ≤ c1.id)) ∧
    OnlyFreshAdded s (buildOrUpdate env payload s).state := by
  have f1 := onlyFresh_destroySlot .tips s
  have f2 := onlyFresh_installChart .tips (payloadTipsConfig env payload) (destroySlot .tips s)
  have f2x := onlyFresh_failedChart env .tips (payloadTipsConfig env payload)
    (destroySlot .tips s)
  have f3 := onlyFresh_destroySlot .staff
    (installChart .tips (payloadTipsConfig env payload) (destroySlot .tips s))
  have f4 := onlyFresh_installChart .staff (payloadStaffConfig env payload) (destroySlot .staff
    (installChart .tips (payloadTipsConfig env payload) (destroySlot .tips s)))
  have f4x := onlyFresh_failedChart env .staff (payloadStaffConfig env payload)
    (destroySlot .staff
      (installChart .tips (payloadTipsConfig env payload) (destroySlot .tips s)))
  have f13 := onlyFresh_trans _ _ _ f2 f3
  have f14 := onlyFresh_trans _ _ _ f13 f4
  have f14x := onlyFresh_trans _ _ _ f13 f4x
  have tipsGone : ∀ c, s.tipsChart = some c → ∀ sf, OnlyFreshAdded (destroySlot .tips s) sf →
      c ∉ liveAfter sf.log := by
    intro c hc sf hsf
    refine not_live_later _ sf c (old_not_live_after_destroy .tips s c hc) ?_ hsf
    rw [destroySlot_nextId]
    exact h.fresh c (slot_chart_live s h .tips c hc).1
  have staffGone : ∀ c, s.staffChart = some c → ∀ sf,
      OnlyFreshAdded (destroySlot .staff
        (installChart .tips (payloadTipsConfig env payload) (destroySlot .tips s))) sf →
      c ∉ liveAfter sf.log := by
    intro c hc sf hsf
    have hst : (installChart .tips (payloadTipsConfig env payload)
        (destroySlot .tips s)).chart .staff = some c := by
      rw [installChart_chart_other .tips .staff _ _ (by decide),
        destroySlot_chart_other .tips .staff _ (by decide)]
      exact hc
    refine not_live_later _ sf c (old_not_live_after_destroy .staff _ c hst) ?_ hsf
    have := h.fresh c (slot_chart_live s h .staff c hc).1
    simp only [destroySlot_nextId, installChart_nextId]
    omega
  rcases buildOrUpdate_cases env payload s with
    ⟨hn2, _⟩ | ⟨_, ht, e⟩ | ⟨_, ht, hs, e⟩ | ⟨_, ht, hs, e⟩
  · exact absurd hn2 hn
  · rw [e]
    simp only [Completion.state]
    refine ⟨fun c hc => tipsGone c hc _ f2x, ?_, ?_, onlyFresh_trans _ _ _ f1 f2x⟩
    · intro c1 hc1
      have := chart_after_tips_reject s .tips
      rw [← failedChart_chart env .tips .tips (payloadTipsConfig env payload), chart_tips,
        hc1] at this
      cases this
    · intro hacc
      rw [ht] at hacc; cases hacc
  · rw [e]
    simp only [Completion.state]
    refine ⟨fun c hc => tipsGone c hc _ f14x, ?_, ?_, onlyFresh_trans _ _ _ f1 f14x⟩
    · intro c1 hc1
      have := chart_after_staff_reject (payloadTipsConfig env payload) s .tips
      rw [← failedChart_chart env .staff .tips (payloadStaffConfig env payload), chart_tips,
        hc1] at this
      simp only [Option.some.injEq] at this
      rw [this]
    · intro _
      refine ⟨fun c hc => staffGone c hc _ f4x, ?_⟩
      intro c1 hc1
      have := chart_after_staff_reject (payloadTipsConfig env payload) s .staff
      rw [← failedChart_chart env .staff .staff (payloadStaffConfig env payload), chart_staff,
        hc1] at this
      cases this
  · rw [e]
    simp only [Completion.state]
    refine ⟨fun c hc => tipsGone c hc _ f14, ?_, ?_, onlyFresh_trans _ _ _ f1 f14⟩
    · intro c1 hc1
      have := chart_after_accept (payloadTipsConfig env payload)
        (payloadStaffConfig env payload) s .tips
      rw [chart_tips, hc1] at this
      simp only [Option.some.injEq] at this
      rw [this]
    · intro _
      refine ⟨fun c hc => staffGone c hc _ f4, ?_⟩
      intro c1 hc1
      have := chart_after_accept (payloadTipsConfig env payload)
        (payloadStaffConfig env payload) s .staff
      rw [chart_staff, hc1] at this
      simp only [Option.some.injEq] at this
      rw [this]
      exact Nat.le_succ _

/-- C8: in every state reached by seed blocks, request starts, request
completions and timer installations in any order, with any outcomes and with
the chart constructor returning, throwing before it registered its instance or
throwing after (the library refusing a canvas that is in use), each canvas has
at most one live instance, and the instance a variable holds is that one; the
same bound held at every earlier moment of the log, also between the steps of
a rebuild; a rebuild from such a state destroys the instance a slot held,
leaves in the slot nothing or an instance constructed during the rebuild,
leaves live only instances that were live before or were constructed during
the rebuild, and again leaves at most one live instance on each canvas. -/
theorem one_live_chart_per_slot (s : State) (h : Reachable s) :
    (∀ slot, (liveOn (liveAfter s.log) slot).length ≤ 1) ∧
    (∀ slot c, s.chart slot = some c → liveOn (liveAfter s.log) slot = [c]) ∧
    (∀ pre, pre <+: s.log → ∀ slot, (liveOn (liveAfter pre) slot).length ≤ 1) ∧
    (∀ (env : Env) (payload : Json), payload ≠ Json.null →
      (∀ c, s.tipsChart = some c → c ∉ liveAfter (buildOrUpdate env payload s).state.log) ∧
      (∀ c1, (buildOrUpdate env payload s).state.tipsChart = some c1 → s.nextId ≤ c1.id) ∧
      (env.accepts .tips (payloadTipsConfig env payload) = true →
        (∀ c, s.staffChart = some c →
          c ∉ liveAfter (buildOrUpdate env payload s).state.log) ∧
        (∀ c1, (buildOrUpdate env payload s).state.staffChart = some c1 →
          s.nextId ≤ c1.id)) ∧
      (∀ c ∈ liveAfter (buildOrUpdate env payload s).state.log,
        c ∈ liveAfter s.log ∨ s.nextId ≤ c.id)) ∧
    (∀ (env : Env) (payload : Json), LawfulRebuild env payload s →
      ∀ slot, (liveOn (liveAfter (buildOrUpdate env payload s).state.log) slot).length ≤ 1) := by
  have hi := reachable_inv s h
  refine ⟨hi.atMost, hi.slots, hi.trace, ?_, ?_⟩
  · intro env payload hn
    obtain ⟨h1, h2, h3, h4⟩ := buildOrUpdate_replaces env payload s hi hn
    exact ⟨h1, h2, h3, h4.1⟩
  · intro env payload law
    exact (inv_buildOrUpdate env payload s hi law).atMost

/-- C8 after a refresh during which the staff constructor threw after
registering its instance, followed by a refresh during which the library
refused the staff canvas: the staff variable is empty, the staff canvas carries
the one instance left behind, and no second one. -/
theorem one_live_chart_per_slot_witness :
    leakedState.staffChart.isNone = true ∧
    (liveOn (liveAfter leakedState.log) .staff).length = 1 ∧
    (liveOn (liveAfter (fetchData refusingEnv (.response 200 (some demoPayload.toJson))
      leakedState).state.log) .staff).length ≤ 1 :=
  ⟨rfl, rfl,
    (one_live_chart_per_slot _
      (Reachable.complete refusingEnv (.response 200 (some demoPayload.toJson))
        (Reachable.begin
          (Reachable.complete leakyEnv (.response 200 (some demoPayload.toJson))
            (Reachable.begin Reachable.load)
            (fun _ => ⟨fun hu => Bool.noConfusion (show false = true from hu),
              fun hu => Bool.noConfusion (show false = true from hu)⟩)))
        (fun _ => ⟨fun hu => Bool.noConfusion (show false = true from hu),
          fun _ => ⟨rfl, rfl⟩⟩))).1 .staff⟩

end XinraApp
